import Mathlib

/-!
Shallow embedding of the status-reconciliation and caching subsystem of the
stripe-pay payment-orchestration service, together with proofs settling the
frozen claims about its natural-language specification.

Modelling conventions, fixed once for the whole development:

* The Redis cache (package `cache`) is modelled as an association-list store
  per logical table, plus an audit log of every set-with-TTL and every delete.
  When the client is available the store is assumed healthy: `GET` returns the
  stored value or a miss, never a transport error.  All call sites in the
  handler treat a cache read error exactly like a miss (`err == nil && v != nil`
  guards), so this and the error-returning reading are indistinguishable there.
* Time values (`time.Time`, RFC3339 strings, `time.Duration`) are modelled as
  natural numbers; durations are in seconds (5s, 10s, 60s, 30min = 1800s).
* Fire-and-forget goroutines are modelled by executing the spawned tasks
  sequentially, in spawn order, after the HTTP response has been computed.
  The response therefore never depends on a background task, which is exactly
  the property the source aims for.  Effect structures additionally count the
  provider calls made synchronously (before the response) and asynchronously.
* The Stripe SDK (`paymentintent.Get` / `paymentintent.New`) is an opaque
  function `String → Option PaymentIntent`; `none` is any failed call
  (network error, timeout, not-found).
* `json.Marshal`/`Unmarshal` round-trips are the identity (the store keeps
  typed values).
-/

namespace StripePay

/-- Association-list write: Redis SET semantics, the new binding shadows any
previous binding for the same key. -/
def listSet {α : Type} (l : List (String × α)) (k : String) (v : α) : List (String × α) :=
  (k, v) :: l.filter (fun p => p.1 ≠ k)

/-- Association-list read. -/
def listGet {α : Type} (l : List (String × α)) (k : String) : Option α :=
  (l.find? (fun p => p.1 = k)).map (fun p => p.2)

/-- Association-list delete: Redis DEL semantics. -/
def listDel {α : Type} (l : List (String × α)) (k : String) : List (String × α) :=
  l.filter (fun p => p.1 ≠ k)

/-- Stripe PaymentIntent as seen through the SDK: the fields the service
reads (`pi.ID`, `pi.Status`, `pi.Amount`, `pi.Currency`, `pi.ClientSecret`,
`pi.Metadata["user_id"]`, `pi.Metadata["payment_id"]`). -/
structure PaymentIntent where
  id : String
  status : String
  amount : Int
  currency : String
  clientSecret : String
  metaUserID : String
  metaPaymentID : String
deriving Repr, DecidableEq

/-- The provider gateway: `paymentintent.Get` keyed by payment-intent id.
`none` models any failed call. -/
abbrev Provider := String → Option PaymentIntent

/-- Cache record `cache.PaymentCacheData` (payment snapshot). -/
structure PaymentCacheData where
  paymentID : String
  paymentIntentID : String
  userID : String
  amount : Int
  currency : String
  status : String
  paymentMethod : String
  description : String
  createdAt : Nat
  updatedAt : Nat
deriving Repr, DecidableEq

/-- Cache record `cache.StripeStatusCacheData` (provider-status snapshot). -/
structure StripeStatusCacheData where
  paymentIntentID : String
  status : String
  amount : Int
  currency : String
  cachedAt : Nat
deriving Repr, DecidableEq

/-- Cache record `cache.StatusChangeEvent`. -/
structure StatusChangeEvent where
  paymentIntentID : String
  oldStatus : String
  newStatus : String
  changedAt : Nat
  source : String
deriving Repr, DecidableEq

/-- Cache key for `payment:{payment_id}` (source constant PaymentKeyPrefix). -/
def paymentKey (paymentID : String) : String := "payment:" ++ paymentID

/-- Cache key for `payment_intent:{payment_intent_id}`. -/
def paymentIntentKey (paymentIntentID : String) : String := "payment_intent:" ++ paymentIntentID

/-- Cache key for `stripe_status:{payment_intent_id}`. -/
def stripeStatusKey (paymentIntentID : String) : String := "stripe_status:" ++ paymentIntentID

/-- Cache key for `status_change:{payment_intent_id}`. -/
def statusChangeKey (paymentIntentID : String) : String := "status_change:" ++ paymentIntentID

/-- Cache key space for `user_payment:{user_id}:*` aggregate entries. -/
def userPaymentKey (userID suffix : String) : String := "user_payment:" ++ userID ++ ":" ++ suffix

/-- State of the Cache Store (Redis).  `available` models `cache.IsAvailable()`
(`client != nil`).  The four typed tables correspond to the four logical key
spaces, plus the user-payment aggregate entries as raw values.  `writes` logs
every set-with-TTL as (key, ttl seconds); `deletes` logs every deleted key. -/
structure CacheState where
  available : Bool
  payment : List (String × PaymentCacheData)
  paymentIntent : List (String × PaymentCacheData)
  stripeStatus : List (String × StripeStatusCacheData)
  statusChange : List (String × StatusChangeEvent)
  userPayment : List (String × Int)
  writes : List (String × Nat)
  deletes : List String
deriving Repr, DecidableEq

/-- cache.GetPayment: read the `payment:{id}` snapshot; `none` when the
client is unavailable or the key is missing. -/
def GetPayment (cs : CacheState) (paymentID : String) : Option PaymentCacheData :=
  if !cs.available then none else listGet cs.payment (paymentKey paymentID)

/-- cache.SetPayment: write the `payment:{id}` snapshot with a TTL. -/
def SetPayment (cs : CacheState) (paymentID : String) (d : PaymentCacheData) (ttl : Nat) :
    CacheState :=
  if !cs.available then cs
  else { cs with
    payment := listSet cs.payment (paymentKey paymentID) d
    writes := cs.writes ++ [(paymentKey paymentID, ttl)] }

/-- cache.DeletePayment. -/
def DeletePayment (cs : CacheState) (paymentID : String) : CacheState :=
  if !cs.available then cs
  else { cs with
    payment := listDel cs.payment (paymentKey paymentID)
    deletes := cs.deletes ++ [paymentKey paymentID] }

/-- cache.GetPaymentByIntentID. -/
def GetPaymentByIntentID (cs : CacheState) (paymentIntentID : String) : Option PaymentCacheData :=
  if !cs.available then none else listGet cs.paymentIntent (paymentIntentKey paymentIntentID)

/-- cache.SetPaymentByIntentID. -/
def SetPaymentByIntentID (cs : CacheState) (paymentIntentID : String) (d : PaymentCacheData)
    (ttl : Nat) : CacheState :=
  if !cs.available then cs
  else { cs with
    paymentIntent := listSet cs.paymentIntent (paymentIntentKey paymentIntentID) d
    writes := cs.writes ++ [(paymentIntentKey paymentIntentID, ttl)] }

/-- cache.GetStripeStatus. -/
def GetStripeStatus (cs : CacheState) (paymentIntentID : String) : Option StripeStatusCacheData :=
  if !cs.available then none else listGet cs.stripeStatus (stripeStatusKey paymentIntentID)

/-- cache.SetStripeStatus. -/
def SetStripeStatus (cs : CacheState) (paymentIntentID : String) (d : StripeStatusCacheData)
    (ttl : Nat) : CacheState :=
  if !cs.available then cs
  else { cs with
    stripeStatus := listSet cs.stripeStatus (stripeStatusKey paymentIntentID) d
    writes := cs.writes ++ [(stripeStatusKey paymentIntentID, ttl)] }

/-- cache.DeleteStripeStatus. -/
def DeleteStripeStatus (cs : CacheState) (paymentIntentID : String) : CacheState :=
  if !cs.available then cs
  else { cs with
    stripeStatus := listDel cs.stripeStatus (stripeStatusKey paymentIntentID)
    deletes := cs.deletes ++ [stripeStatusKey paymentIntentID] }

/-- cache.InvalidateUserPaymentCache: pattern delete of `user_payment:{uid}:*`. -/
def InvalidateUserPaymentCache (cs : CacheState) (userID : String) : CacheState :=
  if !cs.available then cs
  else
    let doomed := cs.userPayment.filter
      (fun p => ("user_payment:" ++ userID ++ ":").isPrefixOf p.1)
    { cs with
      userPayment := cs.userPayment.filter
        (fun p => !(("user_payment:" ++ userID ++ ":").isPrefixOf p.1))
      deletes := cs.deletes ++ doomed.map (fun p => p.1) }

/-- Status-change events are cached for 60 seconds (source: `client.Set(ctx,
key, val, 60*time.Second)` in RecordStatusChange). -/
def statusChangeEventTTL : Nat := 60

/-- cache.RecordStatusChange: store a StatusChangeEvent under
`status_change:{id}` with the 60 second TTL; no-op when unavailable. -/
def RecordStatusChange (cs : CacheState) (paymentIntentID oldStatus newStatus src : String)
    (now : Nat) : CacheState :=
  if !cs.available then cs
  else { cs with
    statusChange := listSet cs.statusChange (statusChangeKey paymentIntentID)
      ⟨paymentIntentID, oldStatus, newStatus, now, src⟩
    writes := cs.writes ++ [(statusChangeKey paymentIntentID, statusChangeEventTTL)] }

/-- cache.GetStatusChangeEvent. -/
def GetStatusChangeEvent (cs : CacheState) (paymentIntentID : String) :
    Option StatusChangeEvent :=
  if !cs.available then none else listGet cs.statusChange (statusChangeKey paymentIntentID)

/-- cache.ClearStatusChangeEvent. -/
def ClearStatusChangeEvent (cs : CacheState) (paymentIntentID : String) : CacheState :=
  if !cs.available then cs
  else { cs with
    statusChange := listDel cs.statusChange (statusChangeKey paymentIntentID)
    deletes := cs.deletes ++ [statusChangeKey paymentIntentID] }

/-- cache: the list of final statuses in IsFinalStatus. -/
def finalStatuses : List String := ["succeeded", "failed", "canceled", "requires_capture"]

/-- cache.IsFinalStatus: membership in the final-status list. -/
def IsFinalStatus (status : String) : Bool :=
  finalStatuses.any (fun s => status = s)

/-- cache: the list of intermediate statuses in IsIntermediateStatus. -/
def intermediateStatuses : List String :=
  ["requires_payment_method", "requires_confirmation", "requires_action", "processing"]

/-- cache.IsIntermediateStatus: membership in the intermediate-status list. -/
def IsIntermediateStatus (status : String) : Bool :=
  intermediateStatuses.any (fun s => status = s)

/-- cache.GetStripeStatusTTL: 5 seconds for final statuses, 10 seconds for
intermediate ones, 5 seconds for anything else. -/
def GetStripeStatusTTL (status : String) : Nat :=
  if IsFinalStatus status then 5
  else if IsIntermediateStatus status then 10
  else 5

/-- The three-way classification of the specification:
classify(status) → {Intermediate, Final, Unknown}, derived from the two
source predicates in the order every call site consults them. -/
inductive StatusClass where
  | Intermediate : StatusClass
  | Final : StatusClass
  | Unknown : StatusClass
deriving Repr, DecidableEq

/-- The status classifier of the specification, as computed by the source
predicates IsFinalStatus / IsIntermediateStatus. -/
def classify (status : String) : StatusClass :=
  if IsFinalStatus status then .Final
  else if IsIntermediateStatus status then .Intermediate
  else .Unknown

/-- cache.DefaultPaymentCacheTTL = 30 minutes. -/
def DefaultPaymentCacheTTL : Nat := 30 * 60

/-- cache.DefaultUserCacheTTL = 15 minutes. -/
def DefaultUserCacheTTL : Nat := 15 * 60

/-- cache.DefaultStripeStatusTTL = 10 seconds. -/
def DefaultStripeStatusTTL : Nat := 10

/-- Row of the `payment_history` table (db.PaymentHistory). -/
structure PaymentHistory where
  paymentIntentID : String
  paymentID : String
  idempotencyKey : String
  userID : String
  amount : Int
  currency : String
  status : String
  paymentMethod : String
  description : String
  metadata : String
  createdAt : Nat
  updatedAt : Nat
deriving Repr, DecidableEq

/-- Row of the `user_payment_info` table (db.UserPaymentInfo). -/
structure UserPaymentRow where
  userID : String
  hasPaid : Bool
  firstPaymentAt : Option Nat
  lastPaymentAt : Option Nat
  totalPaymentCount : Nat
  totalPaymentAmount : Int
deriving Repr, DecidableEq

/-- State of the Durable Store.  `connected` models `db.DB != nil`;
`failing` models every query/exec returning a driver error (used to state the
fail-open claims).  Uniqueness of `payment_intent_id` and of
`idempotency_key` is enforced by SavePaymentHistory below, mirroring the
schema's UNIQUE constraints. -/
structure DbState where
  connected : Bool
  failing : Bool
  rows : List PaymentHistory
  userInfo : List UserPaymentRow
deriving Repr, DecidableEq

/-- db.GetPaymentByPaymentID with the driver error made explicit. -/
def GetPaymentByPaymentIDE (ds : DbState) (paymentID : String) :
    Except Unit (Option PaymentHistory) :=
  if paymentID = "" then .ok none
  else if ds.failing then .error ()
  else .ok (ds.rows.find? (fun r => r.paymentID = paymentID))

/-- db.GetPaymentByPaymentID as the status handler consumes it: a driver
error is logged and treated as not-found (`err != nil` → warn → proceed with
`payment == nil`). -/
def GetPaymentByPaymentID (ds : DbState) (paymentID : String) : Option PaymentHistory :=
  match GetPaymentByPaymentIDE ds paymentID with
  | .ok r => r
  | .error _ => none

/-- db.GetPaymentByIntentID with the driver error made explicit. -/
def GetPaymentByIntentIDE (ds : DbState) (paymentIntentID : String) :
    Except Unit (Option PaymentHistory) :=
  if paymentIntentID = "" then .ok none
  else if ds.failing then .error ()
  else .ok (ds.rows.find? (fun r => r.paymentIntentID = paymentIntentID))

/-- db.GetPaymentByIdempotencyKey with the driver error made explicit
(an empty key short-circuits to not-found before touching the store). -/
def GetPaymentByIdempotencyKeyE (ds : DbState) (idempotencyKey : String) :
    Except Unit (Option PaymentHistory) :=
  if idempotencyKey = "" then .ok none
  else if ds.failing then .error ()
  else .ok (ds.rows.find? (fun r => r.idempotencyKey = idempotencyKey))

/-- db.UpdatePaymentStatus: `UPDATE payment_history SET status, updated_at
WHERE payment_intent_id = $2`. -/
def UpdatePaymentStatusE (ds : DbState) (paymentIntentID status : String) (now : Nat) :
    Except Unit DbState :=
  if ds.failing then .error ()
  else
    let rows := ds.rows.map (fun r =>
      if r.paymentIntentID = paymentIntentID
      then { r with status := status, updatedAt := now } else r)
    .ok { ds with rows := rows }

/-- db.UpdateUserPaymentInfo: insert the aggregate row of the user on first sight,
otherwise increment count and amount, refresh last (and possibly first)
payment timestamps, and set has_paid. -/
def UpdateUserPaymentInfoE (ds : DbState) (userID : String) (amount : Int) (now : Nat) :
    Except Unit DbState :=
  if ds.failing then .error ()
  else match ds.userInfo.find? (fun u => u.userID = userID) with
  | none =>
      .ok { ds with userInfo := ds.userInfo ++ [⟨userID, true, some now, some now, 1, amount⟩] }
  | some _ =>
      .ok { ds with userInfo := ds.userInfo.map (fun u =>
        if u.userID = userID then
          { u with
            hasPaid := true
            firstPaymentAt := if u.firstPaymentAt = none then some now else u.firstPaymentAt
            lastPaymentAt := some now
            totalPaymentCount := u.totalPaymentCount + 1
            totalPaymentAmount := u.totalPaymentAmount + amount }
        else u) }

/-- db.GetUserPaymentInfo: the per-user aggregate recomputed on read from the
rows with status `succeeded` (count, sum, earliest and latest created_at). -/
def GetUserPaymentInfoE (ds : DbState) (userID : String) : Except Unit UserPaymentRow :=
  if ds.failing then .error ()
  else
    let mine := ds.rows.filter (fun r => r.userID = userID && r.status = "succeeded")
    let times := mine.map (fun r => r.createdAt)
    .ok
      { userID := userID
        hasPaid := decide (0 < mine.length)
        firstPaymentAt := times.min?
        lastPaymentAt := times.max?
        totalPaymentCount := mine.length
        totalPaymentAmount := (mine.map (fun r => r.amount)).sum }

/-- Outcome of db.SavePaymentHistory: either the duplicate-idempotency-key
condition (db.DuplicateIdempotencyKeyError) or another driver error. -/
inductive SaveError where
  | duplicateKey : String → SaveError
  | other : SaveError
deriving Repr, DecidableEq

/-- db.SavePaymentHistory: `INSERT ... ON CONFLICT (payment_intent_id) DO
UPDATE SET status`.  A conflict on the UNIQUE idempotency_key index instead
raises the distinguishable duplicate-key error.  (The Go code always binds the
key column, so equal keys conflict; the schema's unique index is
uk_idempotency_key.) -/
def SavePaymentHistory (ds : DbState) (ph : PaymentHistory) : Except SaveError DbState :=
  if ds.failing then .error .other
  else if ds.rows.any (fun r => r.paymentIntentID = ph.paymentIntentID) then
    let rows := ds.rows.map (fun r =>
      if r.paymentIntentID = ph.paymentIntentID
      then { r with status := ph.status, updatedAt := ph.updatedAt } else r)
    .ok { ds with rows := rows }
  else if ph.idempotencyKey ≠ "" &&
          ds.rows.any (fun r => r.idempotencyKey = ph.idempotencyKey) then
    .error (.duplicateKey ph.idempotencyKey)
  else .ok { ds with rows := ds.rows ++ [ph] }

/-- The JSON body returned by handlers.GetPaymentStatus.  `ok = false` is an
error response with `errorCode` naming the error; the optional
status-change fields are `false`/empty when the response omits them. -/
structure StatusResponse where
  ok : Bool
  errorCode : String
  paymentId : String
  paymentIntentId : String
  status : String
  amount : Int
  currency : String
  source : String
  cached : Bool
  statusChanged : Bool
  newStatus : String
  statusChangedAt : Nat
deriving Repr, DecidableEq

/-- Effects of one GetPaymentStatus call: stores after all spawned background
tasks have run, plus provider-call counters (synchronous = awaited before the
response, asynchronous = performed by a goroutine). -/
structure StatusEffects where
  cacheAfter : CacheState
  dbAfter : DbState
  syncProviderCalls : Nat
  asyncProviderCalls : Nat

/-- Error response helper (common.SendError). -/
def errResponse (code : String) : StatusResponse :=
  ⟨false, code, "", "", "", 0, "", "", false, false, "", 0⟩

/-- handlers.updateStripeStatusCache: final statuses are not cached — the
provider-status entry is deleted; intermediate statuses are cached with
GetStripeStatusTTL; any other status is left untouched. -/
def updateStripeStatusCache (cs : CacheState) (paymentIntentID : String)
    (intent : PaymentIntent) (now : Nat) : CacheState :=
  if !cs.available then cs
  else if IsFinalStatus intent.status then
    DeleteStripeStatus cs paymentIntentID
  else if IsIntermediateStatus intent.status then
    SetStripeStatus cs paymentIntentID
      ⟨intent.id, intent.status, intent.amount, intent.currency, now⟩
      (GetStripeStatusTTL intent.status)
  else cs

/-- The payment snapshot updateCacheFromStripe builds from a database row and
a live intent. -/
def snapshotFromStripe (payment : PaymentHistory) (intent : PaymentIntent) (now : Nat) :
    PaymentCacheData :=
  { paymentID := payment.paymentID
    paymentIntentID := intent.id
    userID := payment.userID
    amount := intent.amount
    currency := intent.currency
    status := intent.status
    paymentMethod := payment.paymentMethod
    description := payment.description
    createdAt := payment.createdAt
    updatedAt := now }

/-- handlers.updateCacheFromStripe: refresh the provider-status snapshot,
then re-read the database row and refresh both payment snapshots with the
30-minute TTL. -/
def updateCacheFromStripe (cs : CacheState) (ds : DbState) (paymentID paymentIntentID : String)
    (intent : PaymentIntent) (now : Nat) : CacheState :=
  if !cs.available then cs
  else
    let cs1 := updateStripeStatusCache cs paymentIntentID intent now
    if ds.connected then
      match GetPaymentByPaymentID ds paymentID with
      | some payment =>
          let d := snapshotFromStripe payment intent now
          SetPaymentByIntentID (SetPayment cs1 paymentID d DefaultPaymentCacheTTL)
            paymentIntentID d DefaultPaymentCacheTTL
      | none => cs1
    else cs1

/-- The stale-while-revalidate goroutine shared by the three intermediate
cache-hit branches of GetPaymentStatus: re-fetch the live intent; when the
status differs record a StatusChangeEvent (and, on the internal-id paths,
persist the new status to the database); then refresh the provider-status
snapshot and, on the internal-id paths, the payment snapshots.  Returns the
stores after the task and the number of provider calls it made. -/
def asyncRevalidate (cs : CacheState) (ds : DbState) (prov : Provider)
    (payID paymentIntentID oldStatus : String) (updateDb refreshPayment : Bool) (now : Nat) :
    CacheState × DbState × Nat :=
  match prov paymentIntentID with
  | none => (cs, ds, 1)
  | some intent =>
      let stepped : CacheState × DbState :=
        if intent.status ≠ oldStatus then
          let cs1 := RecordStatusChange cs paymentIntentID oldStatus intent.status "revalidate" now
          let ds1 :=
            if updateDb && ds.connected then
              match UpdatePaymentStatusE ds paymentIntentID intent.status now with
              | .ok d => d
              | .error _ => ds
            else ds
          (cs1, ds1)
        else (cs, ds)
      let cs2 := updateStripeStatusCache stepped.1 paymentIntentID intent now
      let cs3 :=
        if refreshPayment then updateCacheFromStripe cs2 stepped.2 payID paymentIntentID intent now
        else cs2
      (cs3, stepped.2, 1)

/-- Build the immediate cached response of the intermediate cache-hit
branches, with the optional status-change fields taken from the (unconsumed)
StatusChangeEvent. -/
def cachedResponse (payID src : String) (ss : StripeStatusCacheData)
    (ev : Option StatusChangeEvent) : StatusResponse :=
  { ok := true
    errorCode := ""
    paymentId := payID
    paymentIntentId := ss.paymentIntentID
    status := ss.status
    amount := ss.amount
    currency := ss.currency
    source := src
    cached := true
    statusChanged := ev.isSome
    newStatus := match ev with | some e => e.newStatus | none => ""
    statusChangedAt := match ev with | some e => e.changedAt | none => 0 }

/-- Step 1.2 of handlers.GetPaymentStatus: the payment snapshot was in the
cache but the provider-status cache missed or held a final status, so the
provider is queried synchronously; on success the caches are refreshed in the
background and the live data is returned as source "stripe"; on failure
step 1.3 returns the cached snapshot as source "cache". -/
def statusStep12 (cs : CacheState) (ds : DbState) (prov : Provider)
    (cachedData : PaymentCacheData) (now : Nat) : StatusResponse × StatusEffects :=
  match prov cachedData.paymentIntentID with
  | some intent =>
      let cs1 := updateStripeStatusCache cs cachedData.paymentIntentID intent now
      let cs2 := updateCacheFromStripe cs1 ds cachedData.paymentID cachedData.paymentIntentID
        intent now
      (⟨true, "", cachedData.paymentID, intent.id, intent.status, intent.amount,
        intent.currency, "stripe", false, false, "", 0⟩,
       ⟨cs2, ds, 1, 0⟩)
  | none =>
      (⟨true, "", cachedData.paymentID, cachedData.paymentIntentID, cachedData.status,
        cachedData.amount, cachedData.currency, "cache", false, false, "", 0⟩,
       ⟨cs, ds, 1, 0⟩)

/-- Step 3.2/3.3 of handlers.GetPaymentStatus: the record was resolved
through the database, and the provider is queried synchronously; on failure
the database status is returned as source "database", on success the live
status as source "database+stripe" with a background cache refresh. -/
def statusStep32 (cs : CacheState) (ds : DbState) (prov : Provider)
    (paymentID : String) (p : PaymentHistory) (now : Nat) : StatusResponse × StatusEffects :=
  match prov p.paymentIntentID with
  | none =>
      (⟨true, "", paymentID, p.paymentIntentID, p.status, p.amount, p.currency,
        "database", false, false, "", 0⟩,
       ⟨cs, ds, 1, 0⟩)
  | some intent =>
      let cs1 := updateStripeStatusCache cs p.paymentIntentID intent now
      let cs2 := updateCacheFromStripe cs1 ds paymentID p.paymentIntentID intent now
      (⟨true, "", paymentID, intent.id, intent.status, intent.amount, intent.currency,
        "database+stripe", false, false, "", 0⟩,
       ⟨cs2, ds, 1, 0⟩)

/-- Step 3 of handlers.GetPaymentStatus: a database row with a non-empty
provider reference; consult the provider-status cache first (intermediate
hits are served stale-while-revalidate as "database+cache"), otherwise query
the provider. -/
def statusStep3 (cs : CacheState) (ds : DbState) (prov : Provider)
    (paymentID : String) (p : PaymentHistory) (now : Nat) : StatusResponse × StatusEffects :=
  match GetStripeStatus cs p.paymentIntentID with
  | some ss =>
      if IsFinalStatus ss.status then statusStep32 cs ds prov paymentID p now
      else
        let ev := GetStatusChangeEvent cs p.paymentIntentID
        let bg := asyncRevalidate cs ds prov paymentID p.paymentIntentID ss.status true true now
        (cachedResponse paymentID "database+cache" ss ev, ⟨bg.1, bg.2.1, 0, bg.2.2⟩)
  | none => statusStep32 cs ds prov paymentID p now

/-- Step 4.2/4.3 of handlers.GetPaymentStatus: the key looks like a provider
reference and nothing local matched; the provider is queried synchronously,
failure is NotFound, success is returned as source "stripe" with a background
provider-status refresh. -/
def statusStep42 (cs : CacheState) (ds : DbState) (prov : Provider)
    (paymentID : String) (now : Nat) : StatusResponse × StatusEffects :=
  match prov paymentID with
  | none => (errResponse "payment_not_found", ⟨cs, ds, 1, 0⟩)
  | some intent =>
      let cs1 := updateStripeStatusCache cs paymentID intent now
      (⟨true, "", paymentID, intent.id, intent.status, intent.amount, intent.currency,
        "stripe", false, false, "", 0⟩,
       ⟨cs1, ds, 1, 0⟩)

/-- Step 4 of handlers.GetPaymentStatus: keys starting with "pi_" are treated
as provider references; intermediate provider-status cache hits are served as
source "cache" with a revalidation that neither touches the database nor the
payment snapshots; anything else goes to the provider. -/
def statusStep4 (cs : CacheState) (ds : DbState) (prov : Provider)
    (paymentID : String) (now : Nat) : StatusResponse × StatusEffects :=
  if 3 < paymentID.length && paymentID.take 3 = "pi_" then
    match GetStripeStatus cs paymentID with
    | some ss =>
        if IsFinalStatus ss.status then statusStep42 cs ds prov paymentID now
        else
          let ev := GetStatusChangeEvent cs paymentID
          let bg := asyncRevalidate cs ds prov paymentID paymentID ss.status false false now
          (cachedResponse paymentID "cache" ss ev, ⟨bg.1, bg.2.1, 0, bg.2.2⟩)
    | none => statusStep42 cs ds prov paymentID now
  else
    (errResponse "payment_not_found", ⟨cs, ds, 0, 0⟩)

/-- The payment snapshot step 2 caches from a freshly read database row. -/
def snapshotFromRow (p : PaymentHistory) : PaymentCacheData :=
  { paymentID := p.paymentID
    paymentIntentID := p.paymentIntentID
    userID := p.userID
    amount := p.amount
    currency := p.currency
    status := p.status
    paymentMethod := p.paymentMethod
    description := p.description
    createdAt := p.createdAt
    updatedAt := p.updatedAt }

/-- Steps 2–5 of handlers.GetPaymentStatus: cache miss, so look the key up in
the database by payment id; a found row is cached in the background and
step 3 runs when it carries a provider reference; otherwise fall through to
the provider-reference path (step 4). -/
def statusStep2 (cs : CacheState) (ds : DbState) (prov : Provider)
    (paymentID : String) (now : Nat) : StatusResponse × StatusEffects :=
  match (if ds.connected then GetPaymentByPaymentID ds paymentID else none) with
  | some p =>
      if p.paymentIntentID ≠ "" then
        statusStep3 (SetPayment cs paymentID (snapshotFromRow p) DefaultPaymentCacheTTL)
          ds prov paymentID p now
      else
        statusStep4 (SetPayment cs paymentID (snapshotFromRow p) DefaultPaymentCacheTTL)
          ds prov paymentID now
  | none => statusStep4 cs ds prov paymentID now

/-- handlers.GetPaymentStatus (the reconciliation engine's read path):
payment cache → provider-status cache → database → provider, with
stale-while-revalidate for intermediate statuses. -/
def GetPaymentStatus (cs : CacheState) (ds : DbState) (prov : Provider)
    (paymentID : String) (now : Nat) : StatusResponse × StatusEffects :=
  if paymentID = "" then (errResponse "missing_parameter", ⟨cs, ds, 0, 0⟩)
  else
    match GetPayment cs paymentID with
    | some cachedData =>
        if cachedData.paymentIntentID ≠ "" then
          match GetStripeStatus cs cachedData.paymentIntentID with
          | some ss =>
              if IsFinalStatus ss.status then statusStep12 cs ds prov cachedData now
              else
                let ev := GetStatusChangeEvent cs cachedData.paymentIntentID
                let bg := asyncRevalidate cs ds prov cachedData.paymentID
                  cachedData.paymentIntentID ss.status true true now
                (cachedResponse cachedData.paymentID "cache" ss ev, ⟨bg.1, bg.2.1, 0, bg.2.2⟩)
          | none => statusStep12 cs ds prov cachedData now
        else
          (⟨true, "", cachedData.paymentID, cachedData.paymentIntentID, cachedData.status,
            cachedData.amount, cachedData.currency, "cache", false, false, "", 0⟩,
           ⟨cs, ds, 0, 0⟩)
    | none => statusStep2 cs ds prov paymentID now

/-- Response of handlers.CheckStatusChange. -/
structure CheckChangeResponse where
  ok : Bool
  statusChanged : Bool
  oldStatus : String
  newStatus : String
  source : String
  changedAt : Nat
deriving Repr, DecidableEq

/-- handlers.CheckStatusChange: one-shot delivery of the StatusChangeEvent —
return it and clear it, or report no change. -/
def CheckStatusChange (cs : CacheState) (paymentIntentID : String) :
    CheckChangeResponse × CacheState :=
  if paymentIntentID = "" then (⟨false, false, "", "", "", 0⟩, cs)
  else
    match GetStatusChangeEvent cs paymentIntentID with
    | some e =>
        (⟨true, true, e.oldStatus, e.newStatus, e.source, e.changedAt⟩,
         ClearStatusChangeEvent cs paymentIntentID)
    | none => (⟨true, false, "", "", "", 0⟩, cs)

/-- A verified inbound webhook notification: the Stripe event id and type,
whether the embedded payment-intent snapshot parses, and that snapshot. -/
structure WebhookEvent where
  id : String
  type : String
  parseOk : Bool
  pi : PaymentIntent
deriving Repr, DecidableEq

/-- Outcome of one handlers.StripeWebhook call: whether the event was
acknowledged (HTTP 200, received=true) or rejected before processing, the
stores after all spawned tasks, and how many Durable Store mutation calls
were made (payment-status updates and user-aggregate updates counted
separately). -/
structure WebhookOutcome where
  accepted : Bool
  rejectedCode : String
  cacheAfter : CacheState
  dbAfter : DbState
  dbStatusUpdateCalls : Nat
  userInfoUpdateCalls : Nat

/-- The cache task spawned by the succeeded branch of the webhook: final
statuses delete both the provider-status snapshot and the payment snapshot
(both keyed here by the provider reference), intermediate ones refresh the
provider-status snapshot with its TTL. -/
def webhookSucceededCacheTask (cs : CacheState) (pi : PaymentIntent) (now : Nat) : CacheState :=
  if !cs.available then cs
  else if IsFinalStatus pi.status then
    DeletePayment (DeleteStripeStatus cs pi.id) pi.id
  else
    SetStripeStatus cs pi.id ⟨pi.id, pi.status, pi.amount, pi.currency, now⟩
      (GetStripeStatusTTL pi.status)

/-- The user-aggregate part of the succeeded webhook branch: when the event
carries a user id, update the per-user aggregate and invalidate the user's
payment cache entries on success; acknowledge in every case. -/
def webhookSucceededUserPart (cs : CacheState) (ds : DbState) (ev : WebhookEvent) (now : Nat)
    (statusCalls : Nat) : WebhookOutcome :=
  if ev.pi.metaUserID ≠ "" then
    match UpdateUserPaymentInfoE ds ev.pi.metaUserID ev.pi.amount now with
    | .ok ds2 =>
        ⟨true, "", InvalidateUserPaymentCache cs ev.pi.metaUserID, ds2, statusCalls, 1⟩
    | .error _ => ⟨true, "", cs, ds, statusCalls, 1⟩
  else ⟨true, "", cs, ds, statusCalls, 0⟩

/-- The cache task of the failed and canceled webhook branches: both cache
entries for the reference are deleted outright. -/
def webhookFailedCacheTask (cs : CacheState) (pi : PaymentIntent) : CacheState :=
  if cs.available then DeletePayment (DeleteStripeStatus cs pi.id) pi.id else cs

/-- handlers.StripeWebhook (the webhook ingestor): after signature
verification, recognized payment_intent events update the Durable Store
status; the succeeded branch additionally updates the user aggregate and
spawns the cache task above; the failed and canceled branches delete both
cache entries; unrecognized types are acknowledged untouched.  `sigValid`
stands for the whole precondition chain (readable body, Stripe-Signature
header, configured secret, valid signature). -/
def StripeWebhook (cs : CacheState) (ds : DbState) (ev : WebhookEvent) (sigValid : Bool)
    (now : Nat) : WebhookOutcome :=
  if !sigValid then ⟨false, "invalid_signature", cs, ds, 0, 0⟩
  else if ev.type = "payment_intent.succeeded" then
    if !ev.parseOk || !ds.connected then ⟨true, "", cs, ds, 0, 0⟩
    else
      match UpdatePaymentStatusE ds ev.pi.id ev.pi.status now with
      | .ok ds1 =>
          webhookSucceededUserPart (webhookSucceededCacheTask cs ev.pi now) ds1 ev now 1
      | .error _ => webhookSucceededUserPart cs ds ev now 1
  else if ev.type = "payment_intent.payment_failed" ||
          ev.type = "payment_intent.canceled" then
    if !ev.parseOk || !ds.connected then ⟨true, "", cs, ds, 0, 0⟩
    else
      match UpdatePaymentStatusE ds ev.pi.id ev.pi.status now with
      | .ok ds1 => ⟨true, "", webhookFailedCacheTask cs ev.pi, ds1, 1, 0⟩
      | .error _ => ⟨true, "", webhookFailedCacheTask cs ev.pi, ds, 1, 0⟩
  else ⟨true, "", cs, ds, 0, 0⟩

/-- Two ingestions of the same event, the second starting from the stores the
first left behind (a provider retry of an already-acknowledged event). -/
def ingestTwice (cs : CacheState) (ds : DbState) (ev : WebhookEvent) (sigValid : Bool)
    (now : Nat) : WebhookOutcome × WebhookOutcome :=
  let o1 := StripeWebhook cs ds ev sigValid now
  (o1, StripeWebhook o1.cacheAfter o1.dbAfter ev sigValid now)

/-- biz.ValidateUserID character class: letters, digits, underscore, dot,
hyphen (the source's Unicode letter/number classes, restricted here to the
classes Lean's Char predicates provide; the claims do not depend on the exact
Unicode tables). -/
def userIDCharOk (c : Char) : Bool :=
  c.isAlpha || c.isDigit || c = '_' || c = '.' || c = '-'

/-- biz.ValidateUserID: non-empty, between 1 and 128 characters, and drawn
from the allowed character class. -/
def ValidateUserID (userID : String) : Bool :=
  userID ≠ "" && 1 ≤ userID.length && userID.length ≤ 128 &&
    userID.toList.all userIDCharOk

/-- Substring test used to model strings.Contains. -/
def containsSub (s pat : String) : Bool :=
  (s.splitOn pat).length ≠ 1

/-- The XSS patterns rejected by biz.ValidateDescription. -/
def dangerousPatterns : List String :=
  ["<script", "javascript:", "onerror=", "onload=", "onclick="]

/-- biz.ValidateDescription: empty is fine, otherwise at most 500 characters
and none of the dangerous substrings (checked on the lowercased text). -/
def ValidateDescription (description : String) : Bool :=
  description = "" ||
    (description.length ≤ 500 &&
      !(dangerousPatterns.any (fun pat => containsSub description.toLower pat)))

/-- The payment response returned by the creation flow
(models.PaymentResponse). -/
structure PaymentResponse where
  clientSecret : String
  paymentID : String
  paymentIntentID : String
deriving Repr, DecidableEq

/-- services.CheckIdempotency: an empty key or an absent database handle skip
the check; a driver error on the lookup is logged and the request proceeds
(nil, nil); a found record is returned with the live client secret, or with
an empty one when the provider lookup fails. -/
def CheckIdempotency (ds : DbState) (getIntent : Provider) (idempotencyKey : String) :
    Option PaymentResponse :=
  if idempotencyKey = "" || !ds.connected then none
  else
    match GetPaymentByIdempotencyKeyE ds idempotencyKey with
    | .error _ => none
    | .ok none => none
    | .ok (some p) =>
        match getIntent p.paymentIntentID with
        | none => some ⟨"", p.paymentID, p.paymentIntentID⟩
        | some intent => some ⟨intent.clientSecret, p.paymentID, intent.id⟩

/-- services.CheckUserPaymentValidity: with no database handle the user is
reported not validly paid; otherwise the aggregate is read (a driver error is
surfaced) and the user is valid iff they have a success within the last 30
days.  Returns (valid, daysRemaining). -/
def CheckUserPaymentValidity (ds : DbState) (userID : String) (nowDay : Nat) :
    Except Unit (Bool × Nat) :=
  if !ds.connected then .ok (false, 0)
  else
    match GetUserPaymentInfoE ds userID with
    | .error _ => .error ()
    | .ok info =>
        if !info.hasPaid then .ok (false, 0)
        else
          match info.lastPaymentAt with
          | none => .ok (false, 0)
          | some last =>
              if nowDay - last ≤ 30 then .ok (true, 30 - (nowDay - last))
              else .ok (false, 0)

/-- Environment of one services.CreateStripePayment call: the result of
paymentintent.New (none = provider error), paymentintent.Get for re-reads,
the configured pricing, and the freshly generated internal payment id. -/
structure CreateEnv where
  createIntent : Option PaymentIntent
  getIntent : Provider
  pricing : Option (Int × String)
  newPaymentID : String

/-- Result of the creation flow. -/
inductive CreateResult where
  | success : PaymentResponse → CreateResult
  | alreadyPaid : Nat → CreateResult
  | failure : String → CreateResult
deriving Repr, DecidableEq

/-- Outcome of one services.CreateStripePayment call. -/
structure CreateOutcome where
  result : CreateResult
  dbAfter : DbState
  createIntentCalls : Nat

/-- The payment_history row the creation flow persists. -/
def rowOfIntent (intent : PaymentIntent) (newPaymentID idempotencyKey userID description : String)
    (nowDay : Nat) : PaymentHistory :=
  { paymentIntentID := intent.id
    paymentID := newPaymentID
    idempotencyKey := idempotencyKey
    userID := userID
    amount := intent.amount
    currency := intent.currency
    status := intent.status
    paymentMethod := "card"
    description := description
    metadata := ""
    createdAt := nowDay
    updatedAt := nowDay }

/-- services.CreateStripePayment: validate, short-circuit already-paid users,
create the provider intent, persist the record, and resolve a concurrent
duplicate-idempotency-key save by re-reading and returning the winner; any
other save failure is only logged and the created intent is returned. -/
def CreateStripePayment (ds : DbState) (env : CreateEnv) (userID description : String)
    (idempotencyKey : String) (nowDay : Nat) : CreateOutcome :=
  if userID = "" then ⟨.failure "user_id is required", ds, 0⟩
  else if !ValidateUserID userID then ⟨.failure "invalid user_id", ds, 0⟩
  else if !ValidateDescription description then ⟨.failure "invalid description", ds, 0⟩
  else
    match CheckUserPaymentValidity ds userID nowDay with
    | .error _ => ⟨.failure "failed to check user payment validity", ds, 0⟩
    | .ok v =>
        if v.1 then ⟨.alreadyPaid v.2, ds, 0⟩
        else
          match env.pricing with
          | none => ⟨.failure "failed to get pricing", ds, 0⟩
          | some _ =>
              match env.createIntent with
              | none => ⟨.failure "failed to create payment intent", ds, 1⟩
              | some intent =>
                  if ds.connected then
                    match SavePaymentHistory ds
                        (rowOfIntent intent env.newPaymentID idempotencyKey userID description
                          nowDay) with
                    | .ok ds1 =>
                        ⟨.success ⟨intent.clientSecret, env.newPaymentID, intent.id⟩, ds1, 1⟩
                    | .error (.duplicateKey k) =>
                        (match GetPaymentByIdempotencyKeyE ds k with
                         | .ok (some w) =>
                             (match env.getIntent w.paymentIntentID with
                              | some wi =>
                                  ⟨.success ⟨wi.clientSecret, w.paymentID, wi.id⟩, ds, 1⟩
                              | none =>
                                  ⟨.success ⟨intent.clientSecret, env.newPaymentID, intent.id⟩,
                                    ds, 1⟩)
                         | _ =>
                             ⟨.success ⟨intent.clientSecret, env.newPaymentID, intent.id⟩,
                               ds, 1⟩)
                    | .error .other =>
                        ⟨.success ⟨intent.clientSecret, env.newPaymentID, intent.id⟩, ds, 1⟩
                  else ⟨.success ⟨intent.clientSecret, env.newPaymentID, intent.id⟩, ds, 1⟩

/-- The uniqueness invariant of the idempotency key: at most one stored
payment record per non-empty key (schema index uk_idempotency_key). -/
def AtMostOnePerKey (rows : List PaymentHistory) : Prop :=
  ∀ k : String, k ≠ "" → (rows.filter (fun r => r.idempotencyKey = k)).length ≤ 1

/-- Every set-with-TTL the engine has performed on this cache carried a
strictly positive TTL. -/
def WritesPositive (cs : CacheState) : Prop :=
  ∀ w ∈ cs.writes, 0 < w.2

/-! Concrete fixtures used by the counterexamples and witnesses. -/

/-- An available, empty cache. -/
def emptyCache : CacheState := ⟨true, [], [], [], [], [], [], []⟩

/-- A stored payment in a final state (reference pi_1, internal id pay_1). -/
def rowFinal : PaymentHistory :=
  ⟨"pi_1", "pay_1", "", "u_1", 100, "usd", "succeeded", "card", "", "", 0, 0⟩

/-- Durable Store holding only rowFinal. -/
def dbFinal : DbState := ⟨true, false, [rowFinal], []⟩

/-- The provider's live view of pi_1, agreeing with the stored final state. -/
def intentFinal : PaymentIntent := ⟨"pi_1", "succeeded", 100, "usd", "cs_1", "u_1", "pay_1"⟩

/-- A provider that answers for pi_1 and fails on everything else. -/
def provFinal : Provider := fun s => if s = "pi_1" then some intentFinal else none

/-- A stored payment in an intermediate state (reference pi_1). -/
def rowProcessing : PaymentHistory :=
  ⟨"pi_1", "pay_1", "", "u_1", 100, "usd", "processing", "card", "", "", 0, 0⟩

/-- Durable Store holding only rowProcessing. -/
def dbProcessing : DbState := ⟨true, false, [rowProcessing], []⟩

/-- A provider-status snapshot with an intermediate status for pi_1. -/
def ssRequiresAction : StripeStatusCacheData := ⟨"pi_1", "requires_action", 100, "usd", 0⟩

/-- A cache holding only the intermediate provider-status snapshot for pi_1. -/
def cacheWithIntermediate : CacheState :=
  ⟨true, [], [], [("stripe_status:pi_1", ssRequiresAction)], [], [], [], []⟩

/-- A provider that always fails (network error / timeout). -/
def provDown : Provider := fun _ => none

/-- A payment snapshot for pay_1 as the payment cache would hold it. -/
def snapProcessing : PaymentCacheData :=
  ⟨"pay_1", "pi_1", "u_1", 100, "usd", "processing", "card", "", 0, 0⟩

/-- A cache holding the pay_1 payment snapshot and the provider-status
snapshot for pi_1 (as after a webhook wrote them). -/
def cacheWarm : CacheState :=
  ⟨true, [("payment:pi_1", snapProcessing)], [],
   [("stripe_status:pi_1", ⟨"pi_1", "processing", 100, "usd", 0⟩)], [], [], [], []⟩

/-- A parsed, verified payment_intent.succeeded webhook event for pi_1. -/
def evSucceeded : WebhookEvent :=
  ⟨"evt_1", "payment_intent.succeeded", true, ⟨"pi_1", "succeeded", 100, "usd", "", "u_1", "pay_1"⟩⟩

/-- The winner record of a concurrent creation race on key idem_1. -/
def rowWinner : PaymentHistory :=
  ⟨"pi_w", "pay_w", "idem_1", "u_2", 100, "usd", "processing", "card", "", "", 0, 0⟩

/-- Durable Store already holding the winner record. -/
def dbWinner : DbState := ⟨true, false, [rowWinner], []⟩

/-- The loser's freshly created intent. -/
def intentLoser : PaymentIntent :=
  ⟨"pi_l", "requires_payment_method", 100, "usd", "cs_l", "u_2", "pay_l"⟩

/-- The provider's view of the winner intent. -/
def intentWinner : PaymentIntent := ⟨"pi_w", "processing", 100, "usd", "cs_w", "u_2", "pay_w"⟩

/-- Creation environment for the duplicate-key race: paymentintent.New
produced the loser intent, paymentintent.Get can fetch the winner. -/
def envRace : CreateEnv :=
  ⟨some intentLoser, (fun s => if s = "pi_w" then some intentWinner else none),
   some (100, "usd"), "pay_l"⟩

/-- An absent database handle (db.DB == nil). -/
def dbNil : DbState := ⟨false, false, [], []⟩

/-- A connected database whose driver errors on every query. -/
def dbErroring : DbState := ⟨true, true, [], []⟩

/-! Evaluation lemmas for the association-list store and the cache
operations, used to settle the universally quantified theorems. -/

theorem listGet_set_self {α : Type} (l : List (String × α)) (k : String) (v : α) :
    listGet (listSet l k v) k = some v := by
  simp [listGet, listSet, List.find?]

theorem listGet_del_self {α : Type} (l : List (String × α)) (k : String) :
    listGet (listDel l k) k = none := by
  simp only [listGet, listDel]
  induction l with
  | nil => rfl
  | cons p t ih =>
      by_cases h : p.1 = k
      · simp [h, ih]
      · simp [List.filter, h, List.find?, ih]

@[simp] theorem setPayment_available (cs : CacheState) (p : String) (d : PaymentCacheData)
    (t : Nat) : (SetPayment cs p d t).available = cs.available := by
  simp only [SetPayment]; split <;> rfl

@[simp] theorem setPaymentByIntentID_available (cs : CacheState) (i : String)
    (d : PaymentCacheData) (t : Nat) : (SetPaymentByIntentID cs i d t).available = cs.available := by
  simp only [SetPaymentByIntentID]; split <;> rfl

@[simp] theorem setStripeStatus_available (cs : CacheState) (i : String)
    (d : StripeStatusCacheData) (t : Nat) : (SetStripeStatus cs i d t).available = cs.available := by
  simp only [SetStripeStatus]; split <;> rfl

@[simp] theorem deleteStripeStatus_available (cs : CacheState) (i : String) :
    (DeleteStripeStatus cs i).available = cs.available := by
  simp only [DeleteStripeStatus]; split <;> rfl

@[simp] theorem deletePayment_available (cs : CacheState) (i : String) :
    (DeletePayment cs i).available = cs.available := by
  simp only [DeletePayment]; split <;> rfl

@[simp] theorem recordStatusChange_available (cs : CacheState) (i o n s : String) (now : Nat) :
    (RecordStatusChange cs i o n s now).available = cs.available := by
  simp only [RecordStatusChange]; split <;> rfl

@[simp] theorem clearStatusChangeEvent_available (cs : CacheState) (i : String) :
    (ClearStatusChangeEvent cs i).available = cs.available := by
  simp only [ClearStatusChangeEvent]; split <;> rfl

@[simp] theorem invalidateUserPaymentCache_available (cs : CacheState) (u : String) :
    (InvalidateUserPaymentCache cs u).available = cs.available := by
  simp only [InvalidateUserPaymentCache]; split <;> rfl

@[simp] theorem getStripeStatus_setPayment (cs : CacheState) (p : String)
    (d : PaymentCacheData) (t : Nat) (i : String) :
    GetStripeStatus (SetPayment cs p d t) i = GetStripeStatus cs i := by
  simp only [SetPayment, GetStripeStatus]; split <;> simp_all

@[simp] theorem getStripeStatus_setPaymentByIntentID (cs : CacheState) (j : String)
    (d : PaymentCacheData) (t : Nat) (i : String) :
    GetStripeStatus (SetPaymentByIntentID cs j d t) i = GetStripeStatus cs i := by
  simp only [SetPaymentByIntentID, GetStripeStatus]; split <;> simp_all

@[simp] theorem getStripeStatus_recordStatusChange (cs : CacheState) (j o n s : String)
    (now : Nat) (i : String) :
    GetStripeStatus (RecordStatusChange cs j o n s now) i = GetStripeStatus cs i := by
  simp only [RecordStatusChange, GetStripeStatus]; split <;> simp_all

@[simp] theorem getStripeStatus_deletePayment (cs : CacheState) (j : String) (i : String) :
    GetStripeStatus (DeletePayment cs j) i = GetStripeStatus cs i := by
  simp only [DeletePayment, GetStripeStatus]; split <;> simp_all

@[simp] theorem getStripeStatus_invalidateUserPaymentCache (cs : CacheState) (u : String)
    (i : String) :
    GetStripeStatus (InvalidateUserPaymentCache cs u) i = GetStripeStatus cs i := by
  simp only [InvalidateUserPaymentCache, GetStripeStatus]; split <;> simp_all

theorem getStripeStatus_setStripeStatus_self (cs : CacheState) (i : String)
    (d : StripeStatusCacheData) (t : Nat) (h : cs.available = true) :
    GetStripeStatus (SetStripeStatus cs i d t) i = some d := by
  simp [SetStripeStatus, GetStripeStatus, h, listGet_set_self]

theorem getStripeStatus_deleteStripeStatus_self (cs : CacheState) (i : String)
    (h : cs.available = true) :
    GetStripeStatus (DeleteStripeStatus cs i) i = none := by
  simp [DeleteStripeStatus, GetStripeStatus, h, listGet_del_self]

@[simp] theorem getPayment_setStripeStatus (cs : CacheState) (j : String)
    (d : StripeStatusCacheData) (t : Nat) (p : String) :
    GetPayment (SetStripeStatus cs j d t) p = GetPayment cs p := by
  simp only [SetStripeStatus, GetPayment]; split <;> simp_all

@[simp] theorem getPayment_deleteStripeStatus (cs : CacheState) (j : String) (p : String) :
    GetPayment (DeleteStripeStatus cs j) p = GetPayment cs p := by
  simp only [DeleteStripeStatus, GetPayment]; split <;> simp_all

@[simp] theorem getPayment_recordStatusChange (cs : CacheState) (j o n s : String) (now : Nat)
    (p : String) :
    GetPayment (RecordStatusChange cs j o n s now) p = GetPayment cs p := by
  simp only [RecordStatusChange, GetPayment]; split <;> simp_all

@[simp] theorem getPayment_setPaymentByIntentID (cs : CacheState) (j : String)
    (d : PaymentCacheData) (t : Nat) (p : String) :
    GetPayment (SetPaymentByIntentID cs j d t) p = GetPayment cs p := by
  simp only [SetPaymentByIntentID, GetPayment]; split <;> simp_all

theorem getPayment_setPayment_self (cs : CacheState) (p : String) (d : PaymentCacheData)
    (t : Nat) (h : cs.available = true) :
    GetPayment (SetPayment cs p d t) p = some d := by
  simp [SetPayment, GetPayment, h, listGet_set_self]

theorem getPayment_deletePayment_self (cs : CacheState) (p : String)
    (h : cs.available = true) :
    GetPayment (DeletePayment cs p) p = none := by
  simp [DeletePayment, GetPayment, h, listGet_del_self]

@[simp] theorem getPaymentByIntentID_setPayment (cs : CacheState) (p : String)
    (d : PaymentCacheData) (t : Nat) (i : String) :
    GetPaymentByIntentID (SetPayment cs p d t) i = GetPaymentByIntentID cs i := by
  simp only [SetPayment, GetPaymentByIntentID]; split <;> simp_all

@[simp] theorem getPaymentByIntentID_setStripeStatus (cs : CacheState) (j : String)
    (d : StripeStatusCacheData) (t : Nat) (i : String) :
    GetPaymentByIntentID (SetStripeStatus cs j d t) i = GetPaymentByIntentID cs i := by
  simp only [SetStripeStatus, GetPaymentByIntentID]; split <;> simp_all

@[simp] theorem getPaymentByIntentID_deleteStripeStatus (cs : CacheState) (j : String)
    (i : String) :
    GetPaymentByIntentID (DeleteStripeStatus cs j) i = GetPaymentByIntentID cs i := by
  simp only [DeleteStripeStatus, GetPaymentByIntentID]; split <;> simp_all

@[simp] theorem getPaymentByIntentID_recordStatusChange (cs : CacheState) (j o n s : String)
    (now : Nat) (i : String) :
    GetPaymentByIntentID (RecordStatusChange cs j o n s now) i = GetPaymentByIntentID cs i := by
  simp only [RecordStatusChange, GetPaymentByIntentID]; split <;> simp_all

theorem getPaymentByIntentID_setPaymentByIntentID_self (cs : CacheState) (i : String)
    (d : PaymentCacheData) (t : Nat) (h : cs.available = true) :
    GetPaymentByIntentID (SetPaymentByIntentID cs i d t) i = some d := by
  simp [SetPaymentByIntentID, GetPaymentByIntentID, h, listGet_set_self]

@[simp] theorem getStatusChangeEvent_setPayment (cs : CacheState) (p : String)
    (d : PaymentCacheData) (t : Nat) (i : String) :
    GetStatusChangeEvent (SetPayment cs p d t) i = GetStatusChangeEvent cs i := by
  simp only [SetPayment, GetStatusChangeEvent]; split <;> simp_all

@[simp] theorem getStatusChangeEvent_setPaymentByIntentID (cs : CacheState) (j : String)
    (d : PaymentCacheData) (t : Nat) (i : String) :
    GetStatusChangeEvent (SetPaymentByIntentID cs j d t) i = GetStatusChangeEvent cs i := by
  simp only [SetPaymentByIntentID, GetStatusChangeEvent]; split <;> simp_all

@[simp] theorem getStatusChangeEvent_setStripeStatus (cs : CacheState) (j : String)
    (d : StripeStatusCacheData) (t : Nat) (i : String) :
    GetStatusChangeEvent (SetStripeStatus cs j d t) i = GetStatusChangeEvent cs i := by
  simp only [SetStripeStatus, GetStatusChangeEvent]; split <;> simp_all

@[simp] theorem getStatusChangeEvent_deleteStripeStatus (cs : CacheState) (j : String)
    (i : String) :
    GetStatusChangeEvent (DeleteStripeStatus cs j) i = GetStatusChangeEvent cs i := by
  simp only [DeleteStripeStatus, GetStatusChangeEvent]; split <;> simp_all

@[simp] theorem getStatusChangeEvent_deletePayment (cs : CacheState) (j : String)
    (i : String) :
    GetStatusChangeEvent (DeletePayment cs j) i = GetStatusChangeEvent cs i := by
  simp only [DeletePayment, GetStatusChangeEvent]; split <;> simp_all

theorem getStatusChangeEvent_recordStatusChange_self (cs : CacheState) (i o n s : String)
    (now : Nat) (h : cs.available = true) :
    GetStatusChangeEvent (RecordStatusChange cs i o n s now) i = some ⟨i, o, n, now, s⟩ := by
  simp [RecordStatusChange, GetStatusChangeEvent, h, listGet_set_self]

theorem getStatusChangeEvent_clearStatusChangeEvent_self (cs : CacheState) (i : String)
    (h : cs.available = true) :
    GetStatusChangeEvent (ClearStatusChangeEvent cs i) i = none := by
  simp [ClearStatusChangeEvent, GetStatusChangeEvent, h, listGet_del_self]

@[simp] theorem getPayment_invalidateUserPaymentCache (cs : CacheState) (u : String)
    (p : String) :
    GetPayment (InvalidateUserPaymentCache cs u) p = GetPayment cs p := by
  simp only [InvalidateUserPaymentCache, GetPayment]; split <;> simp_all

@[simp] theorem deleteStripeStatus_writes (cs : CacheState) (i : String) :
    (DeleteStripeStatus cs i).writes = cs.writes := by
  simp only [DeleteStripeStatus]; split <;> rfl

@[simp] theorem deletePayment_writes (cs : CacheState) (i : String) :
    (DeletePayment cs i).writes = cs.writes := by
  simp only [DeletePayment]; split <;> rfl

@[simp] theorem invalidateUserPaymentCache_writes (cs : CacheState) (u : String) :
    (InvalidateUserPaymentCache cs u).writes = cs.writes := by
  simp only [InvalidateUserPaymentCache]; split <;> rfl

@[simp] theorem clearStatusChangeEvent_writes (cs : CacheState) (i : String) :
    (ClearStatusChangeEvent cs i).writes = cs.writes := by
  simp only [ClearStatusChangeEvent]; split <;> rfl

theorem setStripeStatus_writes (cs : CacheState) (i : String) (d : StripeStatusCacheData)
    (t : Nat) (h : cs.available = true) :
    (SetStripeStatus cs i d t).writes = cs.writes ++ [(stripeStatusKey i, t)] := by
  simp [SetStripeStatus, h]

theorem available_of_getPayment_some (cs : CacheState) (p : String) (d : PaymentCacheData)
    (h : GetPayment cs p = some d) : cs.available = true := by
  by_contra hna
  simp [GetPayment] at h
  exact hna h.1

theorem available_of_getStripeStatus_some (cs : CacheState) (i : String)
    (d : StripeStatusCacheData) (h : GetStripeStatus cs i = some d) : cs.available = true := by
  by_contra hna
  simp [GetStripeStatus] at h
  exact hna h.1

theorem isFinalStatus_iff (s : String) : IsFinalStatus s = true ↔ s ∈ finalStatuses := by
  simp only [IsFinalStatus, List.any_eq_true, decide_eq_true_eq]
  constructor
  · rintro ⟨x, hx, rfl⟩; exact hx
  · intro hx; exact ⟨s, hx, rfl⟩

theorem isIntermediateStatus_iff (s : String) :
    IsIntermediateStatus s = true ↔ s ∈ intermediateStatuses := by
  simp only [IsIntermediateStatus, List.any_eq_true, decide_eq_true_eq]
  constructor
  · rintro ⟨x, hx, rfl⟩; exact hx
  · intro hx; exact ⟨s, hx, rfl⟩

theorem statusClasses_disjoint (s : String) :
    ¬(IsFinalStatus s = true ∧ IsIntermediateStatus s = true) := by
  rintro ⟨hf, hi⟩
  rw [isFinalStatus_iff] at hf
  fin_cases hf <;> exact absurd hi (by decide)

theorem getStripeStatusTTL_pos (s : String) : 0 < GetStripeStatusTTL s := by
  unfold GetStripeStatusTTL
  split
  · decide
  · split <;> decide

/-- C6: the status classifier is a pure total function mapping every string
to exactly one of {Intermediate, Final, Unknown}; it is Final exactly on
{succeeded, failed, canceled, requires_capture}, Intermediate exactly on
{requires_payment_method, requires_confirmation, requires_action,
processing}, Unknown on every other string, and the Final and Intermediate
vocabularies are disjoint. -/
theorem classify_total_partition (s : String) :
    (classify s = .Final ↔ s ∈ finalStatuses) ∧
    (classify s = .Intermediate ↔ s ∈ intermediateStatuses) ∧
    (classify s = .Unknown ↔ (s ∉ finalStatuses ∧ s ∉ intermediateStatuses)) ∧
    ¬(IsFinalStatus s = true ∧ IsIntermediateStatus s = true) := by
  have hfi := isFinalStatus_iff s
  have hii := isIntermediateStatus_iff s
  have hdisj := statusClasses_disjoint s
  unfold classify
  by_cases hf : IsFinalStatus s = true
  · have hi : ¬IsIntermediateStatus s = true := fun hi => hdisj ⟨hf, hi⟩
    rw [if_pos hf]
    refine ⟨?_, ?_, ?_, hdisj⟩
    · rw [← hfi]; simp [hf]
    · rw [← hii]; simp [hi]
    · rw [← hfi, ← hii]; simp [hf]
  · rw [if_neg hf]
    by_cases hi : IsIntermediateStatus s = true
    · rw [if_pos hi]
      refine ⟨?_, ?_, ?_, hdisj⟩
      · rw [← hfi]; simp [hf]
      · rw [← hii]; simp [hi]
      · rw [← hfi, ← hii]; simp [hi]
    · rw [if_neg hi]
      refine ⟨?_, ?_, ?_, hdisj⟩
      · rw [← hfi]; simp [hf]
      · rw [← hii]; simp [hi]
      · rw [← hfi, ← hii]; simp [hf, hi]

@[simp] theorem updateStripeStatusCache_available (cs : CacheState) (i : String)
    (intent : PaymentIntent) (now : Nat) :
    (updateStripeStatusCache cs i intent now).available = cs.available := by
  unfold updateStripeStatusCache
  split
  · rfl
  · split
    · simp
    · split <;> simp

@[simp] theorem updateCacheFromStripe_available (cs : CacheState) (ds : DbState)
    (pid i : String) (intent : PaymentIntent) (now : Nat) :
    (updateCacheFromStripe cs ds pid i intent now).available = cs.available := by
  unfold updateCacheFromStripe
  split
  · rfl
  · split
    · split <;> simp
    · simp

@[simp] theorem getStatusChangeEvent_updateStripeStatusCache (cs : CacheState) (i : String)
    (intent : PaymentIntent) (now : Nat) (j : String) :
    GetStatusChangeEvent (updateStripeStatusCache cs i intent now) j =
      GetStatusChangeEvent cs j := by
  unfold updateStripeStatusCache
  split
  · rfl
  · split
    · simp
    · split <;> simp

@[simp] theorem getStatusChangeEvent_updateCacheFromStripe (cs : CacheState) (ds : DbState)
    (pid i : String) (intent : PaymentIntent) (now : Nat) (j : String) :
    GetStatusChangeEvent (updateCacheFromStripe cs ds pid i intent now) j =
      GetStatusChangeEvent cs j := by
  unfold updateCacheFromStripe
  split
  · rfl
  · split
    · split <;> simp
    · simp

theorem getStripeStatus_updateStripeStatusCache_self (cs : CacheState) (i : String)
    (intent : PaymentIntent) (now : Nat) (h : cs.available = true) :
    GetStripeStatus (updateStripeStatusCache cs i intent now) i =
      (if IsFinalStatus intent.status then none
       else if IsIntermediateStatus intent.status then
         some ⟨intent.id, intent.status, intent.amount, intent.currency, now⟩
       else GetStripeStatus cs i) := by
  unfold updateStripeStatusCache
  rw [h]
  by_cases hf : IsFinalStatus intent.status = true
  · simp [hf, getStripeStatus_deleteStripeStatus_self _ _ h]
  · by_cases hi : IsIntermediateStatus intent.status = true
    · simp [hf, hi, getStripeStatus_setStripeStatus_self _ _ _ _ h]
    · simp [hf, hi]

@[simp] theorem getPayment_updateStripeStatusCache (cs : CacheState) (i : String)
    (intent : PaymentIntent) (now : Nat) (p : String) :
    GetPayment (updateStripeStatusCache cs i intent now) p = GetPayment cs p := by
  unfold updateStripeStatusCache
  split
  · rfl
  · split
    · simp
    · split <;> simp

@[simp] theorem getPaymentByIntentID_updateStripeStatusCache (cs : CacheState) (i : String)
    (intent : PaymentIntent) (now : Nat) (j : String) :
    GetPaymentByIntentID (updateStripeStatusCache cs i intent now) j =
      GetPaymentByIntentID cs j := by
  unfold updateStripeStatusCache
  split
  · rfl
  · split
    · simp
    · split <;> simp

theorem getStripeStatus_updateCacheFromStripe_self (cs : CacheState) (ds : DbState)
    (pid i : String) (intent : PaymentIntent) (now : Nat) (h : cs.available = true) :
    GetStripeStatus (updateCacheFromStripe cs ds pid i intent now) i =
      GetStripeStatus (updateStripeStatusCache cs i intent now) i := by
  unfold updateCacheFromStripe
  rw [h]
  simp only [Bool.not_true, Bool.false_eq_true, if_false]
  split
  · split <;> simp
  · simp

theorem checkStatusChange_some (cs : CacheState) (i : String) (e : StatusChangeEvent)
    (hi : i ≠ "") (h : GetStatusChangeEvent cs i = some e) :
    CheckStatusChange cs i =
      (⟨true, true, e.oldStatus, e.newStatus, e.source, e.changedAt⟩,
       ClearStatusChangeEvent cs i) := by
  simp [CheckStatusChange, hi, h]

theorem checkStatusChange_none (cs : CacheState) (i : String)
    (hi : i ≠ "") (h : GetStatusChangeEvent cs i = none) :
    CheckStatusChange cs i = (⟨true, false, "", "", "", 0⟩, cs) := by
  simp [CheckStatusChange, hi, h]

/-- C5: status-change notification is one-shot.  After a transition is
recorded, the first check_status_change call returns changed=true with the
recorded old status, new status, changed-at timestamp and source, and
deletes the event; every subsequent call before a new transition is recorded
returns changed=false and leaves the store unchanged. -/
theorem checkStatusChange_one_shot (cs : CacheState) (i old new src : String) (now : Nat)
    (ha : cs.available = true) (hi : i ≠ "") :
    (CheckStatusChange (RecordStatusChange cs i old new src now) i).1 =
        ⟨true, true, old, new, src, now⟩ ∧
    GetStatusChangeEvent (CheckStatusChange (RecordStatusChange cs i old new src now) i).2 i
        = none ∧
    (CheckStatusChange (CheckStatusChange (RecordStatusChange cs i old new src now) i).2 i).1 =
        ⟨true, false, "", "", "", 0⟩ ∧
    (CheckStatusChange (CheckStatusChange (RecordStatusChange cs i old new src now) i).2 i).2 =
        (CheckStatusChange (RecordStatusChange cs i old new src now) i).2 := by
  have h1 : GetStatusChangeEvent (RecordStatusChange cs i old new src now) i =
      some ⟨i, old, new, now, src⟩ :=
    getStatusChangeEvent_recordStatusChange_self cs i old new src now ha
  have ha1 : (RecordStatusChange cs i old new src now).available = true := by simp [ha]
  have h2 : GetStatusChangeEvent
      (ClearStatusChangeEvent (RecordStatusChange cs i old new src now) i) i = none :=
    getStatusChangeEvent_clearStatusChangeEvent_self _ i ha1
  rw [checkStatusChange_some _ _ _ hi h1]
  rw [checkStatusChange_none _ _ hi h2]
  exact ⟨rfl, h2, rfl, rfl⟩

/-- C1 counterexample: the Durable Store holds the Final status "succeeded"
for pay_1/pi_1, the cache is empty, and the provider is reachable — yet the
query performs a synchronous provider call and answers source
"database+stripe", not source "database" with no provider call as the claim
states. -/
theorem finalStatus_db_query_calls_provider_counterexample :
    GetPaymentByPaymentID dbFinal "pay_1" = some rowFinal ∧
    IsFinalStatus rowFinal.status = true ∧
    GetStripeStatus emptyCache "pi_1" = none ∧
    (GetPaymentStatus emptyCache dbFinal provFinal "pay_1" 0).1.source = "database+stripe" ∧
    (GetPaymentStatus emptyCache dbFinal provFinal "pay_1" 0).2.syncProviderCalls = 1 ∧
    ¬((GetPaymentStatus emptyCache dbFinal provFinal "pay_1" 0).1.source = "database") := by
  decide

/-- C2 counterexample: ingesting the identical succeeded webhook event twice
performs the Durable Store update on each ingestion (one update call per
run, two in total, and the second ingestion visibly mutates the user
aggregate again), so the second ingestion is not free of state mutation as
the claim states. -/
theorem webhook_replay_updates_twice_counterexample :
    (ingestTwice emptyCache dbProcessing evSucceeded true 0).1.dbStatusUpdateCalls = 1 ∧
    (ingestTwice emptyCache dbProcessing evSucceeded true 0).2.dbStatusUpdateCalls = 1 ∧
    (ingestTwice emptyCache dbProcessing evSucceeded true 0).2.dbAfter ≠
      (ingestTwice emptyCache dbProcessing evSucceeded true 0).1.dbAfter := by
  decide

/-- C3 counterexample: a query by internal id that misses the payment cache,
resolves the reference through the Durable Store and then hits the
provider-status cache with the Intermediate status "requires_action" answers
source "database+cache", not source "cache" as the claim states for every
intermediate provider-status cache hit. -/
theorem intermediate_cache_hit_source_counterexample :
    GetStripeStatus cacheWithIntermediate "pi_1" = some ssRequiresAction ∧
    IsIntermediateStatus ssRequiresAction.status = true ∧
    (GetPaymentStatus cacheWithIntermediate dbProcessing provDown "pay_1" 0).1.cached = true ∧
    (GetPaymentStatus cacheWithIntermediate dbProcessing provDown "pay_1" 0).1.source =
      "database+cache" ∧
    ¬((GetPaymentStatus cacheWithIntermediate dbProcessing provDown "pay_1" 0).1.source =
      "cache") := by
  decide

/-- C4 counterexample: after ingesting a succeeded (Final) webhook event the
ingestor performs no cache write at all — it deletes both the
provider-status entry and the payment entry outright, leaving the
provider-status cache empty, contrary to the claimed write-with-TTL. -/
theorem webhook_final_deletes_cache_counterexample :
    IsFinalStatus evSucceeded.pi.status = true ∧
    (StripeWebhook cacheWarm dbProcessing evSucceeded true 0).cacheAfter.writes = [] ∧
    (StripeWebhook cacheWarm dbProcessing evSucceeded true 0).cacheAfter.deletes =
      ["stripe_status:pi_1", "payment:pi_1"] ∧
    GetStripeStatus (StripeWebhook cacheWarm dbProcessing evSucceeded true 0).cacheAfter
      "pi_1" = none := by
  decide

theorem updatePaymentStatusE_ok_eq (ds : DbState) (i s : String) (now : Nat) (d : DbState)
    (h : UpdatePaymentStatusE ds i s now = .ok d) :
    d.connected = ds.connected ∧ d.failing = ds.failing ∧
    d.rows = ds.rows.map (fun r =>
      if r.paymentIntentID = i then { r with status := s, updatedAt := now } else r) := by
  unfold UpdatePaymentStatusE at h
  split at h
  · exact absurd h (by simp)
  · cases h
    exact ⟨rfl, rfl, rfl⟩

theorem asyncRevalidate_calls (cs : CacheState) (ds : DbState) (prov : Provider)
    (pid i old : String) (u rp : Bool) (now : Nat) :
    (asyncRevalidate cs ds prov pid i old u rp now).2.2 = 1 := by
  unfold asyncRevalidate
  cases prov i <;> simp

theorem asyncRevalidate_db_unchanged (cs : CacheState) (ds : DbState) (prov : Provider)
    (pid i old : String) (rp : Bool) (now : Nat) :
    (asyncRevalidate cs ds prov pid i old false rp now).2.1 = ds := by
  unfold asyncRevalidate
  cases hp : prov i with
  | none => rfl
  | some intent =>
      simp only []
      split
      · rfl
      · rfl

theorem asyncRevalidate_diff_effects
    (cs : CacheState) (ds : DbState) (prov : Provider) (payID i : String) (old : String)
    (now : Nat) (intent : PaymentIntent)
    (havail : cs.available = true)
    (hprov : prov i = some intent)
    (hdiff : intent.status ≠ old) :
    GetStatusChangeEvent (asyncRevalidate cs ds prov payID i old true true now).1 i =
      some ⟨i, old, intent.status, now, "revalidate"⟩ ∧
    (ds.connected = true → ds.failing = false →
      ((asyncRevalidate cs ds prov payID i old true true now).2.1).rows =
        ds.rows.map (fun r =>
          if r.paymentIntentID = i then { r with status := intent.status, updatedAt := now }
          else r)) ∧
    (IsIntermediateStatus intent.status = true →
      GetStripeStatus (asyncRevalidate cs ds prov payID i old true true now).1 i =
        some ⟨intent.id, intent.status, intent.amount, intent.currency, now⟩) ∧
    (IsFinalStatus intent.status = true →
      GetStripeStatus (asyncRevalidate cs ds prov payID i old true true now).1 i = none) ∧
    (∀ q : PaymentHistory, ds.connected = true →
      GetPaymentByPaymentID (asyncRevalidate cs ds prov payID i old true true now).2.1 payID =
        some q →
      GetPayment (asyncRevalidate cs ds prov payID i old true true now).1 payID =
        some (snapshotFromStripe q intent now) ∧
      GetPaymentByIntentID (asyncRevalidate cs ds prov payID i old true true now).1 i =
        some (snapshotFromStripe q intent now)) := by
  have hbg : asyncRevalidate cs ds prov payID i old true true now =
      (updateCacheFromStripe
        (updateStripeStatusCache (RecordStatusChange cs i old intent.status "revalidate" now)
          i intent now)
        (if ds.connected then
          match UpdatePaymentStatusE ds i intent.status now with
          | .ok d => d
          | .error _ => ds
         else ds)
        payID i intent now,
       (if ds.connected then
          match UpdatePaymentStatusE ds i intent.status now with
          | .ok d => d
          | .error _ => ds
        else ds), 1) := by
    unfold asyncRevalidate
    rw [hprov]
    simp [hdiff]
  rw [hbg]
  set cs1 := RecordStatusChange cs i old intent.status "revalidate" now with hcs1
  set cs2 := updateStripeStatusCache cs1 i intent now with hcs2
  set ds1 := (if ds.connected then
      match UpdatePaymentStatusE ds i intent.status now with
      | .ok d => d
      | .error _ => ds
    else ds) with hds1
  have havail1 : cs1.available = true := by rw [hcs1]; simp [havail]
  have havail2 : cs2.available = true := by rw [hcs2]; simp [havail1]
  refine ⟨?_, ?_, ?_, ?_, ?_⟩
  · rw [hcs2, hcs1]
    simp only [getStatusChangeEvent_updateCacheFromStripe,
      getStatusChangeEvent_updateStripeStatusCache]
    exact getStatusChangeEvent_recordStatusChange_self cs i old intent.status "revalidate" now
      havail
  · intro hconn hnofail
    rw [hds1, if_pos hconn]
    have : UpdatePaymentStatusE ds i intent.status now = .ok
        { ds with rows := ds.rows.map (fun r =>
            if r.paymentIntentID = i then { r with status := intent.status, updatedAt := now }
            else r) } := by
      unfold UpdatePaymentStatusE
      rw [hnofail]
      rfl
    rw [this]
  · intro hi
    have hnff : IsFinalStatus intent.status = false := by
      cases h : IsFinalStatus intent.status
      · rfl
      · exact absurd ⟨h, hi⟩ (statusClasses_disjoint intent.status)
    rw [getStripeStatus_updateCacheFromStripe_self _ _ _ _ _ _ havail2]
    rw [getStripeStatus_updateStripeStatusCache_self _ _ _ _ havail2]
    simp [hnff, hi]
  · intro hf
    rw [getStripeStatus_updateCacheFromStripe_self _ _ _ _ _ _ havail2]
    rw [getStripeStatus_updateStripeStatusCache_self _ _ _ _ havail2]
    simp [hf]
  · intro q hconn hq
    have hds1conn : ds1.connected = true := by
      rw [hds1, if_pos hconn]
      split
      · rename_i d hd
        rw [(updatePaymentStatusE_ok_eq _ _ _ _ _ hd).1]
        exact hconn
      · exact hconn
    unfold updateCacheFromStripe
    rw [havail2]
    simp only [Bool.not_true, Bool.false_eq_true, if_false, hds1conn, if_true, hq]
    constructor
    · rw [getPayment_setPaymentByIntentID]
      exact getPayment_setPayment_self _ _ _ _ (by simp [havail2])
    · exact getPaymentByIntentID_setPaymentByIntentID_self _ _ _ _ (by simp [havail2])

theorem getPaymentStatus_cacheHit_intermediate_eq
    (cs : CacheState) (ds : DbState) (prov : Provider) (pid : String) (now : Nat)
    (cd : PaymentCacheData) (ss : StripeStatusCacheData)
    (hpid : pid ≠ "")
    (hhit : GetPayment cs pid = some cd)
    (hiid : cd.paymentIntentID ≠ "")
    (hss : GetStripeStatus cs cd.paymentIntentID = some ss)
    (hint : IsIntermediateStatus ss.status = true) :
    GetPaymentStatus cs ds prov pid now =
      (cachedResponse cd.paymentID "cache" ss (GetStatusChangeEvent cs cd.paymentIntentID),
       ⟨(asyncRevalidate cs ds prov cd.paymentID cd.paymentIntentID ss.status true true now).1,
        (asyncRevalidate cs ds prov cd.paymentID cd.paymentIntentID ss.status true true now).2.1,
        0,
        (asyncRevalidate cs ds prov cd.paymentID cd.paymentIntentID ss.status true true
          now).2.2⟩) := by
  have hnf : IsFinalStatus ss.status = false := by
    cases h : IsFinalStatus ss.status
    · rfl
    · exact absurd ⟨h, hint⟩ (statusClasses_disjoint ss.status)
  unfold GetPaymentStatus
  rw [if_neg hpid, hhit]
  simp only [hiid, ne_eq, not_false_iff, if_true, hss, hnf]
  simp

/-- C9 counterexample: the Durable Store holds a record for reference pi_1
(status "processing"), the cache is empty and the provider call fails — yet
a query keyed by the provider reference pi_1 returns a NotFound error
instead of the stored status, because the read path only ever looks the
database up by internal payment id. -/
theorem provider_failure_pi_path_counterexample :
    GetPaymentByIntentIDE dbProcessing "pi_1" = .ok (some rowProcessing) ∧
    (GetPaymentStatus emptyCache dbProcessing provDown "pi_1" 0).1.ok = false ∧
    (GetPaymentStatus emptyCache dbProcessing provDown "pi_1" 0).1.errorCode =
      "payment_not_found" := ⟨rfl, by decide⟩

/-- C1 (amended): when a status query resolves a record with a Final status
through the Durable Store (payment cache miss, provider-status cache miss or
Final), the engine still performs exactly one synchronous provider call; it
returns the stored status with source "database" only when that call fails,
and the provider's status with source "database+stripe" when it succeeds. -/
theorem getPaymentStatus_final_db_always_calls_provider
    (cs : CacheState) (ds : DbState) (prov : Provider) (pid : String) (now : Nat)
    (p : PaymentHistory)
    (hpid : pid ≠ "")
    (hmiss : GetPayment cs pid = none)
    (hconn : ds.connected = true)
    (hfind : GetPaymentByPaymentID ds pid = some p)
    (hiid : p.paymentIntentID ≠ "")
    (_hfin : IsFinalStatus p.status = true)
    (hcache : (GetStripeStatus cs p.paymentIntentID).all
        (fun ss => IsFinalStatus ss.status) = true) :
    (GetPaymentStatus cs ds prov pid now).2.syncProviderCalls = 1 ∧
    (prov p.paymentIntentID = none →
      (GetPaymentStatus cs ds prov pid now).1.ok = true ∧
      (GetPaymentStatus cs ds prov pid now).1.source = "database" ∧
      (GetPaymentStatus cs ds prov pid now).1.status = p.status) ∧
    (∀ intent : PaymentIntent, prov p.paymentIntentID = some intent →
      (GetPaymentStatus cs ds prov pid now).1.ok = true ∧
      (GetPaymentStatus cs ds prov pid now).1.source = "database+stripe" ∧
      (GetPaymentStatus cs ds prov pid now).1.status = intent.status) := by
  have hstep : GetPaymentStatus cs ds prov pid now =
      statusStep32 (SetPayment cs pid (snapshotFromRow p) DefaultPaymentCacheTTL)
        ds prov pid p now := by
    unfold GetPaymentStatus
    rw [if_neg hpid, hmiss]
    unfold statusStep2
    simp only [hconn, if_true, hfind]
    rw [if_pos hiid]
    unfold statusStep3
    rw [getStripeStatus_setPayment]
    cases hss : GetStripeStatus cs p.paymentIntentID with
    | none => rfl
    | some ss =>
        have hf : IsFinalStatus ss.status = true := by
          rw [hss] at hcache
          simpa using hcache
        simp [hf]
  rw [hstep]
  unfold statusStep32
  cases hp : prov p.paymentIntentID with
  | none => simp
  | some intent => simp

/-- C3 (amended): a status query that hits the provider-status cache with an
Intermediate status returns the cached snapshot immediately with cached=true
and no synchronous provider call, and re-fetches the live status in exactly
one asynchronous provider call.  The source field is "cache" on the
payment-cache-resolved path and on the direct provider-reference path, and
"database+cache" on the Durable-Store-resolved path.  On the
payment-cache-resolved path, when the live status differs a StatusChangeEvent
is recorded, the new status is persisted to the Durable Store (when it is
connected and healthy), the provider-status snapshot is re-written when the
new status is Intermediate and deleted when it is Final, and both payment
snapshots are refreshed from the stored record.  The direct
provider-reference path never touches the Durable Store. -/
theorem getPaymentStatus_intermediate_cache_hit :
    (∀ (cs : CacheState) (ds : DbState) (prov : Provider) (pid : String) (now : Nat)
        (cd : PaymentCacheData) (ss : StripeStatusCacheData),
      pid ≠ "" → GetPayment cs pid = some cd → cd.paymentIntentID ≠ "" →
      GetStripeStatus cs cd.paymentIntentID = some ss → IsIntermediateStatus ss.status = true →
      ((GetPaymentStatus cs ds prov pid now).1.ok = true ∧
       (GetPaymentStatus cs ds prov pid now).1.source = "cache" ∧
       (GetPaymentStatus cs ds prov pid now).1.cached = true ∧
       (GetPaymentStatus cs ds prov pid now).1.status = ss.status ∧
       (GetPaymentStatus cs ds prov pid now).2.syncProviderCalls = 0 ∧
       (GetPaymentStatus cs ds prov pid now).2.asyncProviderCalls = 1) ∧
      (∀ intent : PaymentIntent, prov cd.paymentIntentID = some intent →
        intent.status ≠ ss.status →
        GetStatusChangeEvent (GetPaymentStatus cs ds prov pid now).2.cacheAfter
            cd.paymentIntentID =
          some ⟨cd.paymentIntentID, ss.status, intent.status, now, "revalidate"⟩ ∧
        (ds.connected = true → ds.failing = false →
          ((GetPaymentStatus cs ds prov pid now).2.dbAfter).rows =
            ds.rows.map (fun r =>
              if r.paymentIntentID = cd.paymentIntentID then
                { r with status := intent.status, updatedAt := now }
              else r)) ∧
        (IsIntermediateStatus intent.status = true →
          GetStripeStatus (GetPaymentStatus cs ds prov pid now).2.cacheAfter
              cd.paymentIntentID =
            some ⟨intent.id, intent.status, intent.amount, intent.currency, now⟩) ∧
        (IsFinalStatus intent.status = true →
          GetStripeStatus (GetPaymentStatus cs ds prov pid now).2.cacheAfter
              cd.paymentIntentID = none) ∧
        (∀ q : PaymentHistory, ds.connected = true →
          GetPaymentByPaymentID (GetPaymentStatus cs ds prov pid now).2.dbAfter cd.paymentID =
            some q →
          GetPayment (GetPaymentStatus cs ds prov pid now).2.cacheAfter cd.paymentID =
            some (snapshotFromStripe q intent now) ∧
          GetPaymentByIntentID (GetPaymentStatus cs ds prov pid now).2.cacheAfter
              cd.paymentIntentID =
            some (snapshotFromStripe q intent now)))) ∧
    (∀ (cs : CacheState) (ds : DbState) (prov : Provider) (pid : String) (now : Nat)
        (p : PaymentHistory) (ss : StripeStatusCacheData),
      pid ≠ "" → GetPayment cs pid = none → ds.connected = true →
      GetPaymentByPaymentID ds pid = some p → p.paymentIntentID ≠ "" →
      GetStripeStatus cs p.paymentIntentID = some ss → IsIntermediateStatus ss.status = true →
      (GetPaymentStatus cs ds prov pid now).1.ok = true ∧
      (GetPaymentStatus cs ds prov pid now).1.source = "database+cache" ∧
      (GetPaymentStatus cs ds prov pid now).1.cached = true ∧
      (GetPaymentStatus cs ds prov pid now).1.status = ss.status ∧
      (GetPaymentStatus cs ds prov pid now).2.syncProviderCalls = 0 ∧
      (GetPaymentStatus cs ds prov pid now).2.asyncProviderCalls = 1) ∧
    (∀ (cs : CacheState) (ds : DbState) (prov : Provider) (pid : String) (now : Nat)
        (ss : StripeStatusCacheData),
      pid ≠ "" → GetPayment cs pid = none →
      (if ds.connected then GetPaymentByPaymentID ds pid else none) = none →
      (3 < pid.length && pid.take 3 = "pi_") = true →
      GetStripeStatus cs pid = some ss → IsIntermediateStatus ss.status = true →
      (GetPaymentStatus cs ds prov pid now).1.ok = true ∧
      (GetPaymentStatus cs ds prov pid now).1.source = "cache" ∧
      (GetPaymentStatus cs ds prov pid now).1.cached = true ∧
      (GetPaymentStatus cs ds prov pid now).1.status = ss.status ∧
      (GetPaymentStatus cs ds prov pid now).2.syncProviderCalls = 0 ∧
      (GetPaymentStatus cs ds prov pid now).2.asyncProviderCalls = 1 ∧
      (GetPaymentStatus cs ds prov pid now).2.dbAfter = ds) := by
  refine ⟨?_, ?_, ?_⟩
  · intro cs ds prov pid now cd ss hpid hhit hiid hss hint
    have havail := available_of_getStripeStatus_some cs _ _ hss
    have hr := getPaymentStatus_cacheHit_intermediate_eq cs ds prov pid now cd ss hpid hhit
      hiid hss hint
    constructor
    · rw [hr]
      refine ⟨rfl, rfl, rfl, rfl, rfl, ?_⟩
      exact asyncRevalidate_calls cs ds prov cd.paymentID cd.paymentIntentID ss.status
        true true now
    · intro intent hprov hdiff
      have heff := asyncRevalidate_diff_effects cs ds prov cd.paymentID cd.paymentIntentID
        ss.status now intent havail hprov hdiff
      rw [hr]
      exact heff
  · intro cs ds prov pid now p ss hpid hmiss hconn hfind hiid hss hint
    have hnf : IsFinalStatus ss.status = false := by
      cases h : IsFinalStatus ss.status
      · rfl
      · exact absurd ⟨h, hint⟩ (statusClasses_disjoint ss.status)
    have hr : GetPaymentStatus cs ds prov pid now =
        (cachedResponse pid "database+cache" ss
           (GetStatusChangeEvent (SetPayment cs pid (snapshotFromRow p) DefaultPaymentCacheTTL)
             p.paymentIntentID),
         ⟨(asyncRevalidate (SetPayment cs pid (snapshotFromRow p) DefaultPaymentCacheTTL) ds prov
             pid p.paymentIntentID ss.status true true now).1,
          (asyncRevalidate (SetPayment cs pid (snapshotFromRow p) DefaultPaymentCacheTTL) ds prov
             pid p.paymentIntentID ss.status true true now).2.1,
          0,
          (asyncRevalidate (SetPayment cs pid (snapshotFromRow p) DefaultPaymentCacheTTL) ds prov
             pid p.paymentIntentID ss.status true true now).2.2⟩) := by
      unfold GetPaymentStatus
      rw [if_neg hpid, hmiss]
      unfold statusStep2
      simp only [hconn, if_true, hfind]
      rw [if_pos hiid]
      unfold statusStep3
      rw [getStripeStatus_setPayment, hss]
      simp [hnf]
    rw [hr]
    refine ⟨rfl, rfl, rfl, rfl, rfl, ?_⟩
    exact asyncRevalidate_calls _ ds prov pid p.paymentIntentID ss.status true true now
  · intro cs ds prov pid now ss hpid hmiss hdb hguard hss hint
    have hnf : IsFinalStatus ss.status = false := by
      cases h : IsFinalStatus ss.status
      · rfl
      · exact absurd ⟨h, hint⟩ (statusClasses_disjoint ss.status)
    have hr : GetPaymentStatus cs ds prov pid now =
        (cachedResponse pid "cache" ss (GetStatusChangeEvent cs pid),
         ⟨(asyncRevalidate cs ds prov pid pid ss.status false false now).1,
          (asyncRevalidate cs ds prov pid pid ss.status false false now).2.1,
          0,
          (asyncRevalidate cs ds prov pid pid ss.status false false now).2.2⟩) := by
      unfold GetPaymentStatus
      rw [if_neg hpid, hmiss]
      unfold statusStep2
      rw [hdb]
      simp only [statusStep4, hguard, if_true, hss]
      simp [hnf]
    rw [hr]
    refine ⟨rfl, rfl, rfl, rfl, rfl, ?_, ?_⟩
    · exact asyncRevalidate_calls cs ds prov pid pid ss.status false false now
    · exact asyncRevalidate_db_unchanged cs ds prov pid pid ss.status false now

/-- C9 (amended): when the provider call fails, a query keyed by an internal
payment id degrades gracefully — if the Durable Store record was found it
returns the stored status as source "database", and if only the payment cache
held the snapshot it returns that snapshot as source "cache".  A query keyed
by a provider reference that misses the caches and the by-payment-id lookup
returns NotFound on provider failure even when the Durable Store holds a
record for that reference, because the read path never looks the record up by
provider reference. -/
theorem getPaymentStatus_provider_failure_degradation :
    (∀ (cs : CacheState) (ds : DbState) (prov : Provider) (pid : String) (now : Nat)
        (p : PaymentHistory), pid ≠ "" → GetPayment cs pid = none → ds.connected = true →
      GetPaymentByPaymentID ds pid = some p → p.paymentIntentID ≠ "" →
      (GetStripeStatus cs p.paymentIntentID).all (fun ss => IsFinalStatus ss.status) = true →
      prov p.paymentIntentID = none →
      (GetPaymentStatus cs ds prov pid now).1.ok = true ∧
      (GetPaymentStatus cs ds prov pid now).1.source = "database" ∧
      (GetPaymentStatus cs ds prov pid now).1.status = p.status) ∧
    (∀ (cs : CacheState) (ds : DbState) (prov : Provider) (pid : String) (now : Nat)
        (cd : PaymentCacheData), pid ≠ "" → GetPayment cs pid = some cd →
      cd.paymentIntentID ≠ "" →
      (GetStripeStatus cs cd.paymentIntentID).all (fun ss => IsFinalStatus ss.status) = true →
      prov cd.paymentIntentID = none →
      (GetPaymentStatus cs ds prov pid now).1.ok = true ∧
      (GetPaymentStatus cs ds prov pid now).1.source = "cache" ∧
      (GetPaymentStatus cs ds prov pid now).1.status = cd.status) ∧
    (∀ (cs : CacheState) (ds : DbState) (prov : Provider) (pid : String) (now : Nat),
      pid ≠ "" → GetPayment cs pid = none →
      (if ds.connected then GetPaymentByPaymentID ds pid else none) = none →
      (3 < pid.length && pid.take 3 = "pi_") = true →
      (GetStripeStatus cs pid).all (fun ss => IsFinalStatus ss.status) = true →
      prov pid = none →
      (GetPaymentStatus cs ds prov pid now).1.ok = false ∧
      (GetPaymentStatus cs ds prov pid now).1.errorCode = "payment_not_found") := by
  refine ⟨?_, ?_, ?_⟩
  · intro cs ds prov pid now p hpid hmiss hconn hfind hiid hcache hprov
    have hstep : GetPaymentStatus cs ds prov pid now =
        statusStep32 (SetPayment cs pid (snapshotFromRow p) DefaultPaymentCacheTTL)
          ds prov pid p now := by
      unfold GetPaymentStatus
      rw [if_neg hpid, hmiss]
      unfold statusStep2
      simp only [hconn, if_true, hfind]
      rw [if_pos hiid]
      unfold statusStep3
      rw [getStripeStatus_setPayment]
      cases hss : GetStripeStatus cs p.paymentIntentID with
      | none => rfl
      | some ss =>
          have hf : IsFinalStatus ss.status = true := by
            rw [hss] at hcache
            simpa using hcache
          simp [hf]
    rw [hstep]
    unfold statusStep32
    simp [hprov]
  · intro cs ds prov pid now cd hpid hhit hiid hcache hprov
    have hstep : GetPaymentStatus cs ds prov pid now = statusStep12 cs ds prov cd now := by
      unfold GetPaymentStatus
      rw [if_neg hpid, hhit]
      simp only [hiid, ne_eq, not_false_iff, if_true]
      cases hss : GetStripeStatus cs cd.paymentIntentID with
      | none => rfl
      | some ss =>
          have hf : IsFinalStatus ss.status = true := by
            rw [hss] at hcache
            simpa using hcache
          simp [hf]
    rw [hstep]
    unfold statusStep12
    simp [hprov]
  · intro cs ds prov pid now hpid hmiss hdb hguard hcache hprov
    have hstep : GetPaymentStatus cs ds prov pid now = statusStep42 cs ds prov pid now := by
      unfold GetPaymentStatus
      rw [if_neg hpid, hmiss]
      unfold statusStep2
      rw [hdb]
      simp only [statusStep4, hguard, if_true]
      cases hss : GetStripeStatus cs pid with
      | none => rfl
      | some ss =>
          have hf : IsFinalStatus ss.status = true := by
            rw [hss] at hcache
            simpa using hcache
          simp [hf]
    rw [hstep]
    unfold statusStep42
    simp [hprov, errResponse]

theorem updateUserPaymentInfoE_ok_flags (ds : DbState) (u : String) (a : Int) (now : Nat)
    (h : ds.failing = false) :
    ∃ d : DbState, UpdateUserPaymentInfoE ds u a now = .ok d ∧
      d.connected = ds.connected ∧ d.failing = ds.failing := by
  unfold UpdateUserPaymentInfoE
  rw [h]
  simp only [Bool.false_eq_true, if_false]
  cases ds.userInfo.find? (fun x => x.userID = u) with
  | none => exact ⟨_, rfl, rfl, rfl⟩
  | some _ => exact ⟨_, rfl, rfl, rfl⟩

theorem webhookSucceededUserPart_run (cs : CacheState) (ds : DbState) (ev : WebhookEvent)
    (now : Nat) (k : Nat) (hfail : ds.failing = false) :
    (webhookSucceededUserPart cs ds ev now k).accepted = true ∧
    (webhookSucceededUserPart cs ds ev now k).dbStatusUpdateCalls = k ∧
    ((webhookSucceededUserPart cs ds ev now k).dbAfter).connected = ds.connected ∧
    ((webhookSucceededUserPart cs ds ev now k).dbAfter).failing = ds.failing := by
  unfold webhookSucceededUserPart
  by_cases hm : ev.pi.metaUserID = ""
  · simp [hm]
  · simp only [hm, ne_eq, not_false_iff, if_true]
    obtain ⟨d2, hu, hc2, hf2⟩ := updateUserPaymentInfoE_ok_flags ds ev.pi.metaUserID
      ev.pi.amount now hfail
    rw [hu]
    exact ⟨rfl, rfl, hc2, hf2⟩

theorem stripeWebhook_succeeded_run (cs : CacheState) (ds : DbState) (ev : WebhookEvent)
    (now : Nat)
    (htype : ev.type = "payment_intent.succeeded")
    (hparse : ev.parseOk = true)
    (hconn : ds.connected = true)
    (hfail : ds.failing = false) :
    (StripeWebhook cs ds ev true now).accepted = true ∧
    (StripeWebhook cs ds ev true now).dbStatusUpdateCalls = 1 ∧
    ((StripeWebhook cs ds ev true now).dbAfter).connected = true ∧
    ((StripeWebhook cs ds ev true now).dbAfter).failing = false := by
  have hupd : UpdatePaymentStatusE ds ev.pi.id ev.pi.status now = .ok
      { ds with rows := ds.rows.map (fun r =>
          if r.paymentIntentID = ev.pi.id then
            { r with status := ev.pi.status, updatedAt := now }
          else r) } := by
    unfold UpdatePaymentStatusE
    rw [hfail]
    rfl
  have hguard : (!ev.parseOk || !ds.connected) = false := by rw [hparse, hconn]; rfl
  unfold StripeWebhook
  simp only [htype, hguard, hupd, Bool.not_true, Bool.false_eq_true, if_false, if_true,
    reduceIte]
  obtain ⟨ha, hk, hc, hf2⟩ := webhookSucceededUserPart_run
    (webhookSucceededCacheTask cs ev.pi now)
    { ds with rows := ds.rows.map (fun r =>
        if r.paymentIntentID = ev.pi.id then
          { r with status := ev.pi.status, updatedAt := now }
        else r) } ev now 1 hfail
  refine ⟨ha, hk, ?_, ?_⟩
  · rw [hc]; exact hconn
  · rw [hf2]; exact hfail

/-- C2 (amended): webhook ingestion is not deduplicated by event id — there
is no processed-event check, so for every verified succeeded event with a
connected, healthy Durable Store, each of two consecutive ingestions of the
identical event performs the Durable Store status update again (one update
call per ingestion, two in total), while both ingestions are acknowledged as
success. -/
theorem stripeWebhook_replay_not_deduplicated (cs : CacheState) (ds : DbState)
    (ev : WebhookEvent) (now : Nat)
    (htype : ev.type = "payment_intent.succeeded")
    (hparse : ev.parseOk = true)
    (hconn : ds.connected = true)
    (hfail : ds.failing = false) :
    (ingestTwice cs ds ev true now).1.accepted = true ∧
    (ingestTwice cs ds ev true now).2.accepted = true ∧
    (ingestTwice cs ds ev true now).1.dbStatusUpdateCalls = 1 ∧
    (ingestTwice cs ds ev true now).2.dbStatusUpdateCalls = 1 := by
  have h1 := stripeWebhook_succeeded_run cs ds ev now htype hparse hconn hfail
  have h2 := stripeWebhook_succeeded_run (StripeWebhook cs ds ev true now).cacheAfter
    (StripeWebhook cs ds ev true now).dbAfter ev now htype hparse h1.2.2.1 h1.2.2.2
  exact ⟨h1.1, h2.1, h1.2.1, h2.2.1⟩

/-- C4 (amended): after a verified succeeded webhook event, the ingestor does
not write the cache entries for a Final status — it deletes the
provider-status snapshot and the payment snapshot outright and performs no
cache write at all; only an Intermediate status is re-written, with the
strictly positive TTL from the TTL policy.  The same holds for
updateStripeStatusCache, which deletes the provider-status snapshot for
every Final status without writing. -/
theorem stripeWebhook_final_status_cache_handling (cs : CacheState) (ds : DbState)
    (ev : WebhookEvent) (now : Nat)
    (htype : ev.type = "payment_intent.succeeded")
    (hparse : ev.parseOk = true)
    (hconn : ds.connected = true)
    (hfail : ds.failing = false)
    (havail : cs.available = true) :
    (IsFinalStatus ev.pi.status = true →
      GetStripeStatus (StripeWebhook cs ds ev true now).cacheAfter ev.pi.id = none ∧
      GetPayment (StripeWebhook cs ds ev true now).cacheAfter ev.pi.id = none ∧
      ((StripeWebhook cs ds ev true now).cacheAfter).writes = cs.writes) ∧
    (IsIntermediateStatus ev.pi.status = true →
      GetStripeStatus (StripeWebhook cs ds ev true now).cacheAfter ev.pi.id =
        some ⟨ev.pi.id, ev.pi.status, ev.pi.amount, ev.pi.currency, now⟩ ∧
      ((StripeWebhook cs ds ev true now).cacheAfter).writes =
        cs.writes ++ [(stripeStatusKey ev.pi.id, GetStripeStatusTTL ev.pi.status)] ∧
      0 < GetStripeStatusTTL ev.pi.status) ∧
    (∀ (cs2 : CacheState) (i : String) (intent : PaymentIntent) (n : Nat),
      cs2.available = true → IsFinalStatus intent.status = true →
      GetStripeStatus (updateStripeStatusCache cs2 i intent n) i = none ∧
      (updateStripeStatusCache cs2 i intent n).writes = cs2.writes) := by
  have hupd : UpdatePaymentStatusE ds ev.pi.id ev.pi.status now = .ok
      { ds with rows := ds.rows.map (fun r =>
          if r.paymentIntentID = ev.pi.id then
            { r with status := ev.pi.status, updatedAt := now }
          else r) } := by
    unfold UpdatePaymentStatusE
    rw [hfail]
    rfl
  have hguard : (!ev.parseOk || !ds.connected) = false := by rw [hparse, hconn]; rfl
  have hcacheAfter :
      (StripeWebhook cs ds ev true now).cacheAfter = webhookSucceededCacheTask cs ev.pi now ∨
      (StripeWebhook cs ds ev true now).cacheAfter =
        InvalidateUserPaymentCache (webhookSucceededCacheTask cs ev.pi now) ev.pi.metaUserID := by
    unfold StripeWebhook
    simp only [htype, hguard, hupd, Bool.not_true, Bool.false_eq_true, if_false, if_true,
      reduceIte]
    unfold webhookSucceededUserPart
    by_cases hm : ev.pi.metaUserID = ""
    · left; simp [hm]
    · right
      simp only [hm, ne_eq, not_false_iff, if_true]
      obtain ⟨d2, hu, _, _⟩ := updateUserPaymentInfoE_ok_flags
        { ds with rows := ds.rows.map (fun r =>
            if r.paymentIntentID = ev.pi.id then
              { r with status := ev.pi.status, updatedAt := now }
            else r) } ev.pi.metaUserID ev.pi.amount now hfail
      rw [hu]
  refine ⟨?_, ?_, ?_⟩
  · intro hfin
    have htask : webhookSucceededCacheTask cs ev.pi now =
        DeletePayment (DeleteStripeStatus cs ev.pi.id) ev.pi.id := by
      unfold webhookSucceededCacheTask
      rw [havail]
      simp [hfin]
    have h1 : GetStripeStatus (webhookSucceededCacheTask cs ev.pi now) ev.pi.id = none := by
      rw [htask, getStripeStatus_deletePayment]
      exact getStripeStatus_deleteStripeStatus_self cs ev.pi.id havail
    have h2 : GetPayment (webhookSucceededCacheTask cs ev.pi now) ev.pi.id = none := by
      rw [htask]
      exact getPayment_deletePayment_self _ _ (by simp [havail])
    have h3 : (webhookSucceededCacheTask cs ev.pi now).writes = cs.writes := by
      rw [htask]
      simp
    rcases hcacheAfter with h | h <;> rw [h] <;> simp [h1, h2, h3]
  · intro hint
    have hnf : IsFinalStatus ev.pi.status = false := by
      cases h : IsFinalStatus ev.pi.status
      · rfl
      · exact absurd ⟨h, hint⟩ (statusClasses_disjoint ev.pi.status)
    have htask : webhookSucceededCacheTask cs ev.pi now =
        SetStripeStatus cs ev.pi.id ⟨ev.pi.id, ev.pi.status, ev.pi.amount, ev.pi.currency, now⟩
          (GetStripeStatusTTL ev.pi.status) := by
      unfold webhookSucceededCacheTask
      rw [havail]
      simp [hnf]
    have h1 : GetStripeStatus (webhookSucceededCacheTask cs ev.pi now) ev.pi.id =
        some ⟨ev.pi.id, ev.pi.status, ev.pi.amount, ev.pi.currency, now⟩ := by
      rw [htask]
      exact getStripeStatus_setStripeStatus_self _ _ _ _ havail
    have h3 : (webhookSucceededCacheTask cs ev.pi now).writes =
        cs.writes ++ [(stripeStatusKey ev.pi.id, GetStripeStatusTTL ev.pi.status)] := by
      rw [htask]
      exact setStripeStatus_writes _ _ _ _ havail
    rcases hcacheAfter with h | h <;> rw [h] <;>
      simp [h1, h3, getStripeStatusTTL_pos]
  · intro cs2 i intent n havail2 hfin
    constructor
    · rw [getStripeStatus_updateStripeStatusCache_self _ _ _ _ havail2]
      simp [hfin]
    · unfold updateStripeStatusCache
      rw [havail2]
      simp [hfin]

theorem writesPositive_of_writes_eq {cs cs' : CacheState} (h : cs'.writes = cs.writes)
    (hp : WritesPositive cs) : WritesPositive cs' := by
  intro w hw
  rw [h] at hw
  exact hp w hw

theorem writesPositive_append {cs cs' : CacheState} (k : String) (t : Nat)
    (h : cs'.writes = cs.writes ++ [(k, t)]) (ht : 0 < t) (hp : WritesPositive cs) :
    WritesPositive cs' := by
  intro w hw
  rw [h, List.mem_append] at hw
  rcases hw with hw | hw
  · exact hp w hw
  · simp only [List.mem_singleton] at hw
    rw [hw]
    exact ht

theorem writesPositive_setPayment (cs : CacheState) (p : String) (d : PaymentCacheData)
    (t : Nat) (ht : 0 < t) (hp : WritesPositive cs) : WritesPositive (SetPayment cs p d t) := by
  unfold SetPayment
  split
  · exact hp
  · exact writesPositive_append (paymentKey p) t rfl ht hp

theorem writesPositive_setPaymentByIntentID (cs : CacheState) (i : String)
    (d : PaymentCacheData) (t : Nat) (ht : 0 < t) (hp : WritesPositive cs) :
    WritesPositive (SetPaymentByIntentID cs i d t) := by
  unfold SetPaymentByIntentID
  split
  · exact hp
  · exact writesPositive_append (paymentIntentKey i) t rfl ht hp

theorem writesPositive_setStripeStatus (cs : CacheState) (i : String)
    (d : StripeStatusCacheData) (t : Nat) (ht : 0 < t) (hp : WritesPositive cs) :
    WritesPositive (SetStripeStatus cs i d t) := by
  unfold SetStripeStatus
  split
  · exact hp
  · exact writesPositive_append (stripeStatusKey i) t rfl ht hp

theorem writesPositive_recordStatusChange (cs : CacheState) (i o n s : String) (now : Nat)
    (hp : WritesPositive cs) : WritesPositive (RecordStatusChange cs i o n s now) := by
  unfold RecordStatusChange
  split
  · exact hp
  · exact writesPositive_append (statusChangeKey i) statusChangeEventTTL rfl (by decide) hp

theorem writesPositive_updateStripeStatusCache (cs : CacheState) (i : String)
    (intent : PaymentIntent) (now : Nat) (hp : WritesPositive cs) :
    WritesPositive (updateStripeStatusCache cs i intent now) := by
  unfold updateStripeStatusCache
  split
  · exact hp
  · split
    · exact writesPositive_of_writes_eq (deleteStripeStatus_writes cs i) hp
    · split
      · exact writesPositive_setStripeStatus _ _ _ _ (getStripeStatusTTL_pos _) hp
      · exact hp

theorem writesPositive_updateCacheFromStripe (cs : CacheState) (ds : DbState)
    (pid i : String) (intent : PaymentIntent) (now : Nat) (hp : WritesPositive cs) :
    WritesPositive (updateCacheFromStripe cs ds pid i intent now) := by
  unfold updateCacheFromStripe
  split
  · exact hp
  · have hp1 := writesPositive_updateStripeStatusCache cs i intent now hp
    split
    · split
      · exact writesPositive_setPaymentByIntentID _ _ _ _ (by decide)
          (writesPositive_setPayment _ _ _ _ (by decide) hp1)
      · exact hp1
    · exact hp1

theorem writesPositive_asyncRevalidate (cs : CacheState) (ds : DbState) (prov : Provider)
    (pid i old : String) (u rp : Bool) (now : Nat) (hp : WritesPositive cs) :
    WritesPositive (asyncRevalidate cs ds prov pid i old u rp now).1 := by
  unfold asyncRevalidate
  cases prov i with
  | none => exact hp
  | some intent =>
      simp only []
      have hstep : WritesPositive
          (if intent.status ≠ old then
            (RecordStatusChange cs i old intent.status "revalidate" now,
             if u && ds.connected then
               match UpdatePaymentStatusE ds i intent.status now with
               | .ok d => d
               | .error _ => ds
             else ds)
          else (cs, ds)).1 := by
        split
        · exact writesPositive_recordStatusChange cs i old intent.status "revalidate" now hp
        · exact hp
      split
      · exact writesPositive_updateCacheFromStripe _ _ _ _ _ _
          (writesPositive_updateStripeStatusCache _ _ _ _ hstep)
      · exact writesPositive_updateStripeStatusCache _ _ _ _ hstep

theorem writesPositive_statusStep12 (cs : CacheState) (ds : DbState) (prov : Provider)
    (cd : PaymentCacheData) (now : Nat) (hp : WritesPositive cs) :
    WritesPositive (statusStep12 cs ds prov cd now).2.cacheAfter := by
  unfold statusStep12
  cases prov cd.paymentIntentID with
  | none => exact hp
  | some intent =>
      exact writesPositive_updateCacheFromStripe _ _ _ _ _ _
        (writesPositive_updateStripeStatusCache _ _ _ _ hp)

theorem writesPositive_statusStep32 (cs : CacheState) (ds : DbState) (prov : Provider)
    (pid : String) (p : PaymentHistory) (now : Nat) (hp : WritesPositive cs) :
    WritesPositive (statusStep32 cs ds prov pid p now).2.cacheAfter := by
  unfold statusStep32
  cases prov p.paymentIntentID with
  | none => exact hp
  | some intent =>
      exact writesPositive_updateCacheFromStripe _ _ _ _ _ _
        (writesPositive_updateStripeStatusCache _ _ _ _ hp)

theorem writesPositive_statusStep3 (cs : CacheState) (ds : DbState) (prov : Provider)
    (pid : String) (p : PaymentHistory) (now : Nat) (hp : WritesPositive cs) :
    WritesPositive (statusStep3 cs ds prov pid p now).2.cacheAfter := by
  unfold statusStep3
  cases GetStripeStatus cs p.paymentIntentID with
  | none => exact writesPositive_statusStep32 cs ds prov pid p now hp
  | some ss =>
      dsimp only
      by_cases hf : IsFinalStatus ss.status = true
      · rw [if_pos hf]
        exact writesPositive_statusStep32 cs ds prov pid p now hp
      · rw [if_neg hf]
        exact writesPositive_asyncRevalidate cs ds prov pid p.paymentIntentID ss.status
          true true now hp

theorem writesPositive_statusStep42 (cs : CacheState) (ds : DbState) (prov : Provider)
    (pid : String) (now : Nat) (hp : WritesPositive cs) :
    WritesPositive (statusStep42 cs ds prov pid now).2.cacheAfter := by
  unfold statusStep42
  cases prov pid with
  | none => exact hp
  | some intent => exact writesPositive_updateStripeStatusCache _ _ _ _ hp

theorem writesPositive_statusStep4 (cs : CacheState) (ds : DbState) (prov : Provider)
    (pid : String) (now : Nat) (hp : WritesPositive cs) :
    WritesPositive (statusStep4 cs ds prov pid now).2.cacheAfter := by
  unfold statusStep4
  split
  · cases GetStripeStatus cs pid with
    | none => exact writesPositive_statusStep42 cs ds prov pid now hp
    | some ss =>
        dsimp only
        by_cases hf : IsFinalStatus ss.status = true
        · rw [if_pos hf]
          exact writesPositive_statusStep42 cs ds prov pid now hp
        · rw [if_neg hf]
          exact writesPositive_asyncRevalidate cs ds prov pid pid ss.status false false now hp
  · exact hp

theorem writesPositive_statusStep2 (cs : CacheState) (ds : DbState) (prov : Provider)
    (pid : String) (now : Nat) (hp : WritesPositive cs) :
    WritesPositive (statusStep2 cs ds prov pid now).2.cacheAfter := by
  unfold statusStep2
  cases (if ds.connected then GetPaymentByPaymentID ds pid else none) with
  | none => exact writesPositive_statusStep4 cs ds prov pid now hp
  | some p =>
      dsimp only
      have hp1 := writesPositive_setPayment cs pid (snapshotFromRow p) DefaultPaymentCacheTTL
        (by decide) hp
      by_cases hi : p.paymentIntentID ≠ ""
      · rw [if_pos hi]
        exact writesPositive_statusStep3 _ ds prov pid p now hp1
      · rw [if_neg hi]
        exact writesPositive_statusStep4 _ ds prov pid now hp1

theorem writesPositive_getPaymentStatus (cs : CacheState) (ds : DbState) (prov : Provider)
    (pid : String) (now : Nat) (hp : WritesPositive cs) :
    WritesPositive (GetPaymentStatus cs ds prov pid now).2.cacheAfter := by
  unfold GetPaymentStatus
  split
  · exact hp
  · cases GetPayment cs pid with
    | none => exact writesPositive_statusStep2 cs ds prov pid now hp
    | some cd =>
        dsimp only
        by_cases hi : cd.paymentIntentID ≠ ""
        · rw [if_pos hi]
          cases GetStripeStatus cs cd.paymentIntentID with
          | none => exact writesPositive_statusStep12 cs ds prov cd now hp
          | some ss =>
              dsimp only
              by_cases hf : IsFinalStatus ss.status = true
              · rw [if_pos hf]
                exact writesPositive_statusStep12 cs ds prov cd now hp
              · rw [if_neg hf]
                exact writesPositive_asyncRevalidate cs ds prov cd.paymentID
                  cd.paymentIntentID ss.status true true now hp
        · rw [if_neg hi]
          exact hp

theorem writesPositive_webhookSucceededCacheTask (cs : CacheState) (pi : PaymentIntent)
    (now : Nat) (hp : WritesPositive cs) :
    WritesPositive (webhookSucceededCacheTask cs pi now) := by
  unfold webhookSucceededCacheTask
  split
  · exact hp
  · split
    · refine writesPositive_of_writes_eq ?_ hp
      simp
    · exact writesPositive_setStripeStatus _ _ _ _ (getStripeStatusTTL_pos _) hp

theorem writesPositive_webhookSucceededUserPart (cs : CacheState) (ds : DbState)
    (ev : WebhookEvent) (now k : Nat) (hp : WritesPositive cs) :
    WritesPositive (webhookSucceededUserPart cs ds ev now k).cacheAfter := by
  unfold webhookSucceededUserPart
  split
  · cases UpdateUserPaymentInfoE ds ev.pi.metaUserID ev.pi.amount now with
    | ok ds2 => exact writesPositive_of_writes_eq (invalidateUserPaymentCache_writes _ _) hp
    | error e => exact hp
  · exact hp

theorem writesPositive_webhookFailedCacheTask (cs : CacheState) (pi : PaymentIntent)
    (hp : WritesPositive cs) : WritesPositive (webhookFailedCacheTask cs pi) := by
  unfold webhookFailedCacheTask
  split
  · refine writesPositive_of_writes_eq ?_ hp
    simp
  · exact hp

theorem writesPositive_stripeWebhook (cs : CacheState) (ds : DbState) (ev : WebhookEvent)
    (sv : Bool) (now : Nat) (hp : WritesPositive cs) :
    WritesPositive (StripeWebhook cs ds ev sv now).cacheAfter := by
  unfold StripeWebhook
  split
  · exact hp
  · split
    · split
      · exact hp
      · cases UpdatePaymentStatusE ds ev.pi.id ev.pi.status now with
        | ok ds1 =>
            exact writesPositive_webhookSucceededUserPart _ _ ev now 1
              (writesPositive_webhookSucceededCacheTask cs ev.pi now hp)
        | error e => exact writesPositive_webhookSucceededUserPart _ _ ev now 1 hp
    · split
      · split
        · exact hp
        · cases UpdatePaymentStatusE ds ev.pi.id ev.pi.status now with
          | ok ds1 => exact writesPositive_webhookFailedCacheTask cs ev.pi hp
          | error e => exact writesPositive_webhookFailedCacheTask cs ev.pi hp
      · exact hp

theorem writesPositive_checkStatusChange (cs : CacheState) (i : String)
    (hp : WritesPositive cs) : WritesPositive (CheckStatusChange cs i).2 := by
  unfold CheckStatusChange
  split
  · exact hp
  · cases GetStatusChangeEvent cs i with
    | some e => exact writesPositive_of_writes_eq (clearStatusChangeEvent_writes _ _) hp
    | none => exact hp

/-- C7: the TTL policy is strictly positive for every status string (never
zero for Final statuses) and assigns Unknown statuses the same TTL as a
Final status; all fixed cache TTL constants are positive; and every cache
write performed by the engine operations (the status read path, the webhook
ingestor and the status-change poll) carries a strictly positive TTL —
positivity of the write log is preserved by each operation. -/
theorem ttl_policy_and_write_positivity :
    (∀ s : String, 0 < GetStripeStatusTTL s) ∧
    (∀ s : String, classify s = .Unknown →
      GetStripeStatusTTL s = GetStripeStatusTTL "succeeded") ∧
    (0 < DefaultPaymentCacheTTL ∧ 0 < DefaultUserCacheTTL ∧ 0 < DefaultStripeStatusTTL ∧
      0 < statusChangeEventTTL) ∧
    (∀ (cs : CacheState) (ds : DbState) (prov : Provider) (pid : String) (now : Nat),
      WritesPositive cs → WritesPositive (GetPaymentStatus cs ds prov pid now).2.cacheAfter) ∧
    (∀ (cs : CacheState) (ds : DbState) (ev : WebhookEvent) (sv : Bool) (now : Nat),
      WritesPositive cs → WritesPositive (StripeWebhook cs ds ev sv now).cacheAfter) ∧
    (∀ (cs : CacheState) (i : String),
      WritesPositive cs → WritesPositive (CheckStatusChange cs i).2) := by
  refine ⟨getStripeStatusTTL_pos, ?_, ⟨by decide, by decide, by decide, by decide⟩,
    ?_, ?_, ?_⟩
  · intro s h
    unfold classify at h
    by_cases hf : IsFinalStatus s = true
    · simp [hf] at h
    · by_cases hi : IsIntermediateStatus s = true
      · simp [hf, hi] at h
      · unfold GetStripeStatusTTL
        rw [if_neg hf, if_neg hi]
        decide
  · intro cs ds prov pid now hp
    exact writesPositive_getPaymentStatus cs ds prov pid now hp
  · intro cs ds ev sv now hp
    exact writesPositive_stripeWebhook cs ds ev sv now hp
  · intro cs i hp
    exact writesPositive_checkStatusChange cs i hp

theorem length_filter_map_eq (rows : List PaymentHistory) (f : PaymentHistory → PaymentHistory)
    (p : PaymentHistory → Bool) (hf : ∀ r, p (f r) = p r) :
    ((rows.map f).filter p).length = (rows.filter p).length := by
  induction rows with
  | nil => rfl
  | cons r t ih =>
      simp only [List.map_cons, List.filter_cons, hf r]
      cases p r <;> simp [ih]

theorem savePaymentHistory_preserves_atMostOne (ds : DbState) (ph : PaymentHistory)
    (d : DbState) (h : SavePaymentHistory ds ph = .ok d) (hA : AtMostOnePerKey ds.rows) :
    AtMostOnePerKey d.rows := by
  unfold SavePaymentHistory at h
  split at h
  · exact absurd h (by simp)
  · split at h
    · cases h
      intro k hk
      have := length_filter_map_eq ds.rows
        (fun r => if r.paymentIntentID = ph.paymentIntentID then
          { r with status := ph.status, updatedAt := ph.updatedAt } else r)
        (fun r => r.idempotencyKey = k) ?_
      · rw [this]
        exact hA k hk
      · intro r
        by_cases hr : r.paymentIntentID = ph.paymentIntentID <;> simp [hr]
    · split at h
      · exact absurd h (by simp)
      · cases h
        rename_i hnodup
        intro k hk
        rw [List.filter_append, List.length_append]
        by_cases hpk : ph.idempotencyKey = k
        · have hany : ds.rows.any (fun r => r.idempotencyKey = ph.idempotencyKey) = false := by
            cases hh : ds.rows.any (fun r => r.idempotencyKey = ph.idempotencyKey)
            · rfl
            · exfalso
              apply hnodup
              simp only [Bool.and_eq_true, hh, and_true, decide_eq_true_eq]
              rw [hpk]
              exact hk
          have hfilter : ds.rows.filter (fun r => r.idempotencyKey = k) = [] := by
            rw [List.filter_eq_nil_iff]
            intro a ha
            have := List.any_eq_false.mp hany a ha
            simp only [decide_eq_true_eq] at this ⊢
            rw [← hpk]
            exact this
          rw [hfilter]
          simpa using List.length_filter_le (fun r => decide (r.idempotencyKey = k)) [ph]
        · have : List.filter (fun r => decide (r.idempotencyKey = k)) [ph] = [] := by
            simp [List.filter, hpk]
          rw [this]
          simpa using hA k hk

theorem createStripePayment_duplicate_recovery_run
    (ds : DbState) (env : CreateEnv) (userID description key : String) (nowDay : Nat)
    (pr : Int × String) (intent : PaymentIntent) (w : PaymentHistory) (wi : PaymentIntent)
    (huid : userID ≠ "")
    (hvu : ValidateUserID userID = true)
    (hvd : ValidateDescription description = true)
    (hval : CheckUserPaymentValidity ds userID nowDay = .ok (false, 0))
    (hpr : env.pricing = some pr)
    (hci : env.createIntent = some intent)
    (hconn : ds.connected = true)
    (hfail : ds.failing = false)
    (hkey : key ≠ "")
    (hnointent : ds.rows.any (fun r => r.paymentIntentID = intent.id) = false)
    (hwfind : ds.rows.find? (fun r => r.idempotencyKey = key) = some w)
    (hgi : env.getIntent w.paymentIntentID = some wi) :
    (CreateStripePayment ds env userID description key nowDay).result =
      .success ⟨wi.clientSecret, w.paymentID, wi.id⟩ ∧
    (CreateStripePayment ds env userID description key nowDay).dbAfter = ds ∧
    (CreateStripePayment ds env userID description key nowDay).createIntentCalls = 1 := by
  have hkeydup : ds.rows.any (fun r => r.idempotencyKey = key) = true := by
    have hp := List.find?_some hwfind
    rw [List.any_eq_true]
    exact ⟨w, List.mem_of_find?_eq_some hwfind, hp⟩
  have hsave : SavePaymentHistory ds
      (rowOfIntent intent env.newPaymentID key userID description nowDay) =
      .error (.duplicateKey key) := by
    unfold SavePaymentHistory rowOfIntent
    rw [hfail]
    simp only [Bool.false_eq_true, if_false]
    dsimp only
    rw [hnointent]
    simp only [Bool.false_eq_true, if_false]
    simp [hkey, hkeydup]
  have hlook : GetPaymentByIdempotencyKeyE ds key = .ok (some w) := by
    unfold GetPaymentByIdempotencyKeyE
    rw [if_neg hkey, hfail]
    simp only [Bool.false_eq_true, if_false]
    rw [hwfind]
  unfold CreateStripePayment
  rw [if_neg huid]
  simp only [hvu, hvd, Bool.not_true, Bool.false_eq_true, if_false]
  rw [hval]
  dsimp only
  rw [hpr, hci]
  dsimp only
  rw [if_pos hconn, hsave]
  dsimp only
  rw [hlook]
  dsimp only
  rw [hgi]
  exact ⟨rfl, rfl, rfl⟩

/-- C8: when persisting the new payment record fails with the
distinguishable duplicate-idempotency-key error, the creation flow re-reads
the stored record for that key, fetches its live intent, and returns the
winner's identifiers to the caller as a success — never surfacing the
duplicate-key condition as an error — leaving the Durable Store unchanged
and having created exactly one provider-side intent in this call; and every
successful save preserves the at-most-one-record-per-idempotency-key
invariant. -/
theorem createPayment_duplicate_key_recovery :
    (∀ (ds : DbState) (env : CreateEnv) (userID description key : String) (nowDay : Nat)
       (pr : Int × String) (intent : PaymentIntent) (w : PaymentHistory) (wi : PaymentIntent),
      userID ≠ "" →
      ValidateUserID userID = true →
      ValidateDescription description = true →
      CheckUserPaymentValidity ds userID nowDay = .ok (false, 0) →
      env.pricing = some pr →
      env.createIntent = some intent →
      ds.connected = true →
      ds.failing = false →
      key ≠ "" →
      ds.rows.any (fun r => r.paymentIntentID = intent.id) = false →
      ds.rows.find? (fun r => r.idempotencyKey = key) = some w →
      env.getIntent w.paymentIntentID = some wi →
      (CreateStripePayment ds env userID description key nowDay).result =
        .success ⟨wi.clientSecret, w.paymentID, wi.id⟩ ∧
      (CreateStripePayment ds env userID description key nowDay).dbAfter = ds ∧
      (CreateStripePayment ds env userID description key nowDay).createIntentCalls = 1) ∧
    (∀ (ds : DbState) (ph : PaymentHistory) (d : DbState),
      SavePaymentHistory ds ph = .ok d → AtMostOnePerKey ds.rows → AtMostOnePerKey d.rows) := by
  refine ⟨?_, savePaymentHistory_preserves_atMostOne⟩
  intro ds env userID description key nowDay pr intent w wi h1 h2 h3 h4 h5 h6 h7 h8 h9 h10 h11 h12
  exact createStripePayment_duplicate_recovery_run ds env userID description key nowDay pr
    intent w wi h1 h2 h3 h4 h5 h6 h7 h8 h9 h10 h11 h12

/-- Witness: the duplicate-key race fixture — the loser re-reads and returns
the winner pi_w / pay_w and the Durable Store is unchanged. -/
theorem createPayment_duplicate_key_recovery_witness :
    (CreateStripePayment dbWinner envRace "u_2" "" "idem_1" 0).result =
      .success ⟨"cs_w", "pay_w", "pi_w"⟩ ∧
    (CreateStripePayment dbWinner envRace "u_2" "" "idem_1" 0).dbAfter = dbWinner :=
  ⟨(createPayment_duplicate_key_recovery.1 dbWinner envRace "u_2" "" "idem_1" 0
      (100, "usd") intentLoser rowWinner intentWinner
      (by decide) (by decide) (by decide) rfl rfl rfl rfl rfl
      (by decide) (by decide) rfl rfl).1,
   (createPayment_duplicate_key_recovery.1 dbWinner envRace "u_2" "" "idem_1" 0
      (100, "usd") intentLoser rowWinner intentWinner
      (by decide) (by decide) (by decide) rfl rfl rfl rfl rfl
      (by decide) (by decide) rfl rfl).2.1⟩

/-- C10: the precondition checks of the creation flow fail open under store
unavailability — CheckIdempotency reports no existing payment when the
database handle is nil or the key is empty, and also when the lookup errors;
CheckUserPaymentValidity reports the user as not validly paid when the
handle is nil; and a creation request with the store down still creates a
new provider-side intent and returns it as a success instead of rejecting
or deduplicating. -/
theorem creation_precondition_fail_open :
    (∀ (ds : DbState) (gi : Provider) (key : String),
      ds.connected = false ∨ key = "" →
      CheckIdempotency ds gi key = none) ∧
    (∀ (ds : DbState) (gi : Provider) (key : String),
      GetPaymentByIdempotencyKeyE ds key = .error () →
      CheckIdempotency ds gi key = none) ∧
    (∀ (ds : DbState) (userID : String) (nowDay : Nat),
      ds.connected = false →
      CheckUserPaymentValidity ds userID nowDay = .ok (false, 0)) ∧
    (∀ (ds : DbState) (env : CreateEnv) (userID description key : String) (nowDay : Nat)
       (pr : Int × String) (intent : PaymentIntent),
      ds.connected = false →
      userID ≠ "" →
      ValidateUserID userID = true →
      ValidateDescription description = true →
      env.pricing = some pr →
      env.createIntent = some intent →
      (CreateStripePayment ds env userID description key nowDay).result =
        .success ⟨intent.clientSecret, env.newPaymentID, intent.id⟩ ∧
      (CreateStripePayment ds env userID description key nowDay).createIntentCalls = 1) := by
  refine ⟨?_, ?_, ?_, ?_⟩
  · intro ds gi key h
    unfold CheckIdempotency
    rcases h with h | h
    · simp [h]
    · simp [h]
  · intro ds gi key h
    unfold CheckIdempotency
    by_cases hc : (key = "" || !ds.connected) = true
    · simp only [hc, if_true]
    · simp only [hc, Bool.false_eq_true, if_false]
      rw [h]
  · intro ds userID nowDay h
    unfold CheckUserPaymentValidity
    simp [h]
  · intro ds env userID description key nowDay pr intent hconn h1 h2 h3 h5 h6
    unfold CreateStripePayment
    rw [if_neg h1]
    simp only [h2, h3, Bool.not_true, Bool.false_eq_true, if_false]
    have hval : CheckUserPaymentValidity ds userID nowDay = .ok (false, 0) := by
      unfold CheckUserPaymentValidity
      simp [hconn]
    rw [hval]
    dsimp only
    rw [h5, h6]
    dsimp only
    simp only [hconn, Bool.false_eq_true, if_false]
    exact ⟨trivial, trivial⟩

/-- Witness: with a nil database handle the idempotency check reports
nothing, the validity check reports not paid, and creation still succeeds
with a fresh provider-side intent; a failing driver also yields a silent
no-result idempotency check. -/
theorem creation_precondition_fail_open_witness :
    CheckIdempotency dbNil provFinal "idem_1" = none ∧
    CheckIdempotency dbErroring provFinal "idem_1" = none ∧
    CheckUserPaymentValidity dbNil "u_1" 0 = .ok (false, 0) ∧
    (CreateStripePayment dbNil envRace "u_2" "" "idem_1" 0).result =
      .success ⟨"cs_l", "pay_l", "pi_l"⟩ :=
  ⟨creation_precondition_fail_open.1 dbNil provFinal "idem_1" (Or.inl rfl),
   creation_precondition_fail_open.2.1 dbErroring provFinal "idem_1" rfl,
   creation_precondition_fail_open.2.2.1 dbNil "u_1" 0 rfl,
   (creation_precondition_fail_open.2.2.2 dbNil envRace "u_2" "" "idem_1" 0
      (100, "usd") intentLoser rfl (by decide) (by decide) (by decide) rfl rfl).1⟩

/-- Witness: the amended C1 theorem at the concrete final-status fixture —
the query performs the one synchronous provider call and answers with the
combined source. -/
theorem getPaymentStatus_final_db_always_calls_provider_witness :
    (GetPaymentStatus emptyCache dbFinal provFinal "pay_1" 0).2.syncProviderCalls = 1 ∧
    (GetPaymentStatus emptyCache dbFinal provFinal "pay_1" 0).1.source = "database+stripe" :=
  ⟨(getPaymentStatus_final_db_always_calls_provider emptyCache dbFinal provFinal "pay_1" 0
      rowFinal (by decide) rfl rfl rfl (by decide) (by decide) (by decide)).1,
   ((getPaymentStatus_final_db_always_calls_provider emptyCache dbFinal provFinal "pay_1" 0
      rowFinal (by decide) rfl rfl rfl (by decide) (by decide) (by decide)).2.2 intentFinal
      rfl).2.1⟩

/-- Witness: replaying the succeeded webhook fixture performs the Durable
Store update on each of the two ingestions. -/
theorem stripeWebhook_replay_not_deduplicated_witness :
    (ingestTwice emptyCache dbProcessing evSucceeded true 0).1.accepted = true ∧
    (ingestTwice emptyCache dbProcessing evSucceeded true 0).2.accepted = true ∧
    (ingestTwice emptyCache dbProcessing evSucceeded true 0).1.dbStatusUpdateCalls = 1 ∧
    (ingestTwice emptyCache dbProcessing evSucceeded true 0).2.dbStatusUpdateCalls = 1 :=
  stripeWebhook_replay_not_deduplicated emptyCache dbProcessing evSucceeded 0 rfl rfl rfl rfl

/-- Witness: the amended C3 theorem on the warm-cache fixture — an
intermediate provider-status hit answers from the cache with no synchronous
provider call. -/
theorem getPaymentStatus_intermediate_cache_hit_witness :
    (GetPaymentStatus cacheWarm dbProcessing provDown "pi_1" 0).1.ok = true ∧
    (GetPaymentStatus cacheWarm dbProcessing provDown "pi_1" 0).1.source = "cache" ∧
    (GetPaymentStatus cacheWarm dbProcessing provDown "pi_1" 0).2.syncProviderCalls = 0 :=
  ⟨((getPaymentStatus_intermediate_cache_hit.1 cacheWarm dbProcessing provDown "pi_1" 0
      snapProcessing ⟨"pi_1", "processing", 100, "usd", 0⟩
      (by decide) rfl (by decide) rfl (by decide)).1).1,
   ((getPaymentStatus_intermediate_cache_hit.1 cacheWarm dbProcessing provDown "pi_1" 0
      snapProcessing ⟨"pi_1", "processing", 100, "usd", 0⟩
      (by decide) rfl (by decide) rfl (by decide)).1).2.1,
   ((getPaymentStatus_intermediate_cache_hit.1 cacheWarm dbProcessing provDown "pi_1" 0
      snapProcessing ⟨"pi_1", "processing", 100, "usd", 0⟩
      (by decide) rfl (by decide) rfl (by decide)).1).2.2.2.2.1⟩

/-- Witness: the amended C4 theorem on the warm-cache fixture — a succeeded
webhook deletes the pi_1 provider-status entry and performs no cache
write. -/
theorem stripeWebhook_final_status_cache_handling_witness :
    GetStripeStatus (StripeWebhook cacheWarm dbProcessing evSucceeded true 0).cacheAfter
      evSucceeded.pi.id = none ∧
    ((StripeWebhook cacheWarm dbProcessing evSucceeded true 0).cacheAfter).writes =
      cacheWarm.writes :=
  ⟨((stripeWebhook_final_status_cache_handling cacheWarm dbProcessing evSucceeded 0
      rfl rfl rfl rfl rfl).1 (by decide)).1,
   ((stripeWebhook_final_status_cache_handling cacheWarm dbProcessing evSucceeded 0
      rfl rfl rfl rfl rfl).1 (by decide)).2.2⟩

/-- Witness: a recorded processing→succeeded transition for pi_1 is
delivered by the first poll. -/
theorem checkStatusChange_one_shot_witness :
    (CheckStatusChange (RecordStatusChange emptyCache "pi_1" "processing" "succeeded"
        "webhook" 5) "pi_1").1 = ⟨true, true, "processing", "succeeded", "webhook", 5⟩ :=
  (checkStatusChange_one_shot emptyCache "pi_1" "processing" "succeeded" "webhook" 5
    rfl (by decide)).1

/-- Witness: the C7 theorem applied to an unknown status string and to a
concrete status query starting from the empty write log. -/
theorem ttl_policy_and_write_positivity_witness :
    GetStripeStatusTTL "bogus" = GetStripeStatusTTL "succeeded" ∧
    WritesPositive (GetPaymentStatus emptyCache dbFinal provFinal "pay_1" 0).2.cacheAfter :=
  ⟨ttl_policy_and_write_positivity.2.1 "bogus" rfl,
   ttl_policy_and_write_positivity.2.2.2.1 emptyCache dbFinal provFinal "pay_1" 0
     (by simp [WritesPositive, emptyCache])⟩

/-- Witness: the amended C9 theorem on the processing fixture — with the
provider down, the stored status is returned as source database. -/
theorem getPaymentStatus_provider_failure_degradation_witness :
    (GetPaymentStatus emptyCache dbProcessing provDown "pay_1" 0).1.ok = true ∧
    (GetPaymentStatus emptyCache dbProcessing provDown "pay_1" 0).1.source = "database" ∧
    (GetPaymentStatus emptyCache dbProcessing provDown "pay_1" 0).1.status = "processing" :=
  getPaymentStatus_provider_failure_degradation.1 emptyCache dbProcessing provDown "pay_1" 0
    rowProcessing (by decide) rfl rfl rfl (by decide) (by decide) rfl

end StripePay
